import Mathlib

/-!
# Verification of the Box compiler front-end (BoxcLang)

A shallow embedding, in Lean 4, of the parts of the Box compiler that the
specification's claims are about:

* the token and AST data model (`src/parser/parser.hpp`, `src/lexer/token.hpp`);
* the `for`-statement lowering performed by `Parser::for_statement`;
* the optimizer pass pipeline (`src/optimizer/optimizer.cpp`): constant
  folder, algebraic simplifier, dead-code eliminator, common-subexpression
  eliminator, loop optimizer, strength reducer, function inliner, peephole
  optimizer, and the fixed-point driver `Optimizer::optimize`;
* the memory-safety analyzer's syntactic phase
  (`src/memory_analyzer/memory_analyzer.cpp`): scope tracking, allocation
  and pointer records, branch handling, leak checks, and the top-level
  `MemorySafetyAnalyzer::analyze` entry point;
* the dataflow join of `MemorySafetyAnalyzer::propagate_allocations`.

Conventions used throughout:

* C++ `double` literals are modelled as rationals (`Rat`).  None of the
  properties proved below depend on IEEE-754 rounding: they only test
  literal payloads for equality with small integer constants (0, 1, 2,
  powers of two), which agree between `double` and `Rat` on every input
  exercised here.
* `std::unordered_map` is modelled as an association list with
  overwrite-on-insert (`AssocMap` below).  Iteration order of an
  `unordered_map` is unspecified in C++; every theorem below either
  iterates maps with at most one entry or is insensitive to the order.
* C++ exceptions are modelled with `Except`; `std::vector` stacks
  (`push_back`/`back`/`pop_back`) are modelled as lists with the top at the
  head.
-/

namespace Box

/-- `TokenType` from `src/lexer/token.hpp`. -/
inductive TokenType where
  | NUMBER | STRING | TRUE | FALSE | NIL | IDENTIFIER
  | PLUS | MINUS | STAR | SLASH | PERCENT
  | BANG | BANG_EQUAL | EQUAL | EQUAL_EQUAL
  | GREATER | GREATER_EQUAL | LESS | LESS_EQUAL
  | AND | OR
  | LPAREN | RPAREN | LBRACE | RBRACE | LBRACKET | RBRACKET
  | COMMA | SEMICOLON | COLON
  | VAR | PRINT | IF | ELSE | WHILE | FOR | FUN | RETURN
  | LEN | HAS | KEYS | VALUES | SWITCH | CASE | DEFAULT | BREAK
  | INPUT | INPUT_NUM | READ_FILE | WRITE_FILE | APPEND_FILE | FILE_EXISTS
  | IMPORT
  | PTR | MALLOC | FREE | CALLOC | REALLOC | ADDR_OF | DEREF
  | AMPERSAND | ARROW
  | UNSAFE | LLVM_INLINE
  | END_OF_FILE
deriving DecidableEq, Repr

/-- `LiteralValue = std::variant<std::monostate, double, std::string, bool>`
(`src/lexer/token.hpp`); doubles are modelled as rationals. -/
inductive LitVal where
  | none
  | num (q : Rat)
  | str (s : String)
  | bool (b : Bool)
deriving DecidableEq, Repr

/-- `Token` from `src/lexer/token.hpp`. -/
structure Token where
  ttype : TokenType
  lexeme : String
  literal : LitVal
  line : Int
  column : Int
deriving DecidableEq, Repr

/-- The two-argument `Token` constructor (no literal payload). -/
def Token.mk2 (t : TokenType) (lexeme : String) (line column : Int) : Token :=
  ⟨t, lexeme, LitVal.none, line, column⟩

/-- Expression AST (`class Expr` hierarchy in `src/parser/parser.hpp`). -/
inductive Expr where
  | lit (value : LitVal) (token : Token)
  | varE (name : Token)
  | assign (name : Token) (value : Expr)
  | binary (left : Expr) (op : Token) (right : Expr)
  | unary (op : Token) (right : Expr)
  | logical (left : Expr) (op : Token) (right : Expr)
  | call (callee : Expr) (paren : Token) (arguments : List Expr)
  | grouping (expression : Expr)
  | arrayLit (elements : List Expr) (bracket : Token)
  | indexGet (array index : Expr) (bracket : Token)
  | indexSet (array index value : Expr) (bracket : Token)
  | dictLit (pairs : List (Expr × Expr)) (brace : Token)
deriving Repr

/-- Statement AST (`class Stmt` hierarchy in `src/parser/parser.hpp`).
A `CaseClause` is the pair of its `value` and `statements` fields.
`nullStmt` models a null `StmtPtr`: the parser never produces one, but
`ConstantFolder::fold_stmt` returns `nullptr` for deleted statements, and
that null can be stored in an `IfStmt`/`WhileStmt` child by a rebuilding
pass. -/
inductive Stmt where
  | nullStmt
  | exprStmt (expression : Expr)
  | printStmt (expression : Expr) (keyword : Token)
  | varStmt (name : Token) (initializer : Option Expr)
  | block (statements : List Stmt) (openingBrace : Token)
  | ifStmt (condition : Expr) (thenBranch : Stmt) (elseBranch : Option Stmt)
      (keyword : Token)
  | whileStmt (condition : Expr) (body : Stmt) (keyword : Token)
  | functionStmt (name : Token) (params : List Token) (body : List Stmt)
  | returnStmt (keyword : Token) (value : Option Expr)
  | breakStmt (keyword : Token)
  | switchStmt (keyword : Token) (condition : Expr)
      (cases : List (Expr × List Stmt)) (defaultCase : Option (List Stmt))
  | unsafeBlock (keyword : Token) (statements : List Stmt)
  | llvmInline (keyword : Token) (llvmCode : String)
      (variablesMap : List (String × String))
  | importStmt (keyword : Token) (filePath : String) (pathToken : Token)
deriving Repr

/-- `true` exactly on the null statement (models `if (stmt)` tests on a
`StmtPtr`). -/
def Stmt.isNull : Stmt → Bool
  | .nullStmt => true
  | _ => false

/-- `true` exactly on number literals (`Literal` whose `LiteralValue` holds a
`double`). -/
def Expr.isNumberLiteral : Expr → Bool
  | .lit (.num _) _ => true
  | _ => false

/-- `true` exactly on literals of any payload. -/
def Expr.isLiteral : Expr → Bool
  | .lit _ _ => true
  | _ => false

/-- `true` exactly on `Variable` nodes (models
`dynamic_cast<Variable*>(expr.get()) != nullptr`). -/
def Expr.isVariable : Expr → Bool
  | .varE _ => true
  | _ => false

end Box

namespace Box

/-! ## Parser: `for` lowering (`Parser::for_statement`, parser.cpp:500-596)

After parsing the clauses, `for_statement` assembles the lowered statement
(lines 568-591): wrap the body with the increment when present, default the
condition to the boolean literal `true` (carrying the `for` keyword token),
wrap in a `WhileStmt`, and prepend the initializer when present.  All
tokens of the created nodes are the `for` keyword token. -/

/-- The statement-assembly tail of `Parser::for_statement` (lines 568-591),
applied to the already-parsed initializer, condition, increment and body.
`none` models a null `StmtPtr`/`ExprPtr` clause. -/
def forStatementLower (forKeyword : Token) (initializer : Option Stmt)
    (condition incrementE : Option Expr) (body0 : Stmt) : Stmt :=
  let body1 : Stmt :=
    match incrementE with
    | some incr => Stmt.block [body0, Stmt.exprStmt incr] forKeyword
    | none => body0
  let cond : Expr :=
    match condition with
    | some c => c
    | none => Expr.lit (LitVal.bool true) forKeyword
  let body2 : Stmt := Stmt.whileStmt cond body1 forKeyword
  match initializer with
  | some ini => Stmt.block [ini, body2] forKeyword
  | none => body2

/-- The lowered form described by the specification:
`Block(init, While(cond, Block(body, ExprStmt(incr))))`, with the literal
`true` substituted for a missing condition, the inner `Block` omitted when
the increment is absent, and the outer `Block` omitted when the initializer
is absent.  (This definition follows the spec's words; `forStatementLower`
follows the source.) -/
def forLoweredSpec (forKeyword : Token) (initializer : Option Stmt)
    (condition incrementE : Option Expr) (body : Stmt) : Stmt :=
  let cond : Expr := condition.getD (Expr.lit (LitVal.bool true) forKeyword)
  match initializer, incrementE with
  | some ini, some incr =>
      Stmt.block
        [ini, Stmt.whileStmt cond
          (Stmt.block [body, Stmt.exprStmt incr] forKeyword) forKeyword]
        forKeyword
  | some ini, none =>
      Stmt.block [ini, Stmt.whileStmt cond body forKeyword] forKeyword
  | none, some incr =>
      Stmt.whileStmt cond (Stmt.block [body, Stmt.exprStmt incr] forKeyword)
        forKeyword
  | none, none => Stmt.whileStmt cond body forKeyword

/-! ## Optimizer (`src/optimizer/optimizer.cpp`)

Every pass maps a statement (list) to a new statement (list) together with
the pass's `modified` flag.  The flag in the C++ code is a write-only member
set to `true` on specific events and read once at the end of `run`, so each
function here returns the disjunction of the events it performed. -/

/-- `OptimizerConfig` (optimizer.hpp) with its in-class default values. -/
structure OptimizerConfig where
  constant_folding : Bool := true
  constant_propagation : Bool := true
  dead_code_elimination : Bool := true
  common_subexpression_elimination : Bool := true
  loop_invariant_code_motion : Bool := true
  loop_unrolling : Bool := true
  loop_unroll_threshold : Int := 32
  strength_reduction : Bool := true
  function_inlining : Bool := true
  inline_threshold : Int := 10
  algebraic_simplification : Bool := true
  peephole_optimization : Bool := true
  optimize_level : Int := 3
  aggressive_optimization : Bool := true
  loop_fusion : Bool := false
  loop_interchange : Bool := false
deriving Repr

/-- Model of `std::to_string(double)`: fixed notation with six decimal
places.  The optimizer only calls it through
`AlgebraicSimplifier::create_literal(0.0)` and `create_literal(1.0)`, where
this model is exact. -/
def toStdString (q : Rat) : String :=
  let neg := decide (q < 0)
  let a : Rat := if q < 0 then -q else q
  let scaled : Int := ⌊a * 1000000 + 1 / 2⌋
  let ip := scaled / 1000000
  let fp := (scaled % 1000000).toNat
  let fpStr := toString fp
  let padded := String.mk (List.replicate (6 - fpStr.length) '0') ++ fpStr
  (if neg then "-" else "") ++ toString ip ++ "." ++ padded

/-- The condition value computed for a literal `if`/`while` condition
(`fold_stmt`, lines 73-79 and 104-110): `bool` and `double` payloads are
tested, any other payload leaves the default `false`. -/
def litCondVal : LitVal → Bool
  | .bool b => b
  | .num q => decide (q ≠ 0)
  | _ => false

/-- Truthiness used when folding `Logical` operands (`fold_expr`,
lines 333-342): `bool` and `double` payloads are tested, any other literal
payload is truthy. -/
def litTruthy : LitVal → Bool
  | .bool b => b
  | .num q => decide (q ≠ 0)
  | _ => true

/-- Model of `fmod` for the `%` constant fold: remainder with the quotient
truncated toward zero, as C's `fmod`. -/
def fmodQ (a b : Rat) : Rat :=
  let t : Int := if a / b < 0 then ⌈a / b⌉ else ⌊a / b⌋
  a - b * (t : Rat)

/-- The literal-folding logic of `fold_expr` for a binary node
(optimizer.cpp:232-327), applied to the already-folded operands `fl` and
`fr`; `msub` is the disjunction of the operands' `modified` events (two
literal operands of foldable payloads set `modified` before the operator
dispatch, so `msub` survives only into the non-folding cases). -/
def foldBinaryNode (op : Token) (fl fr : Expr) (msub : Bool) : Expr × Bool :=
  match fl, fr with
  | .lit lv lt, .lit rv rt =>
      (match lv, rv with
       | .num a, .num b =>
           (match op.ttype with
            | .PLUS => (.lit (.num (a + b)) op, true)
            | .MINUS => (.lit (.num (a - b)) op, true)
            | .STAR => (.lit (.num (a * b)) op, true)
            | .SLASH =>
                if b ≠ 0 then (.lit (.num (a / b)) op, true)
                else (.binary (.lit lv lt) op (.lit rv rt), true)
            | .PERCENT =>
                if b ≠ 0 then (.lit (.num (fmodQ a b)) op, true)
                else (.binary (.lit lv lt) op (.lit rv rt), true)
            | .LESS => (.lit (.bool (decide (a < b))) op, true)
            | .LESS_EQUAL => (.lit (.bool (decide (a ≤ b))) op, true)
            | .GREATER => (.lit (.bool (decide (a > b))) op, true)
            | .GREATER_EQUAL => (.lit (.bool (decide (a ≥ b))) op, true)
            | .EQUAL_EQUAL => (.lit (.bool (decide (a = b))) op, true)
            | .BANG_EQUAL => (.lit (.bool (decide (a ≠ b))) op, true)
            | _ => (.binary (.lit lv lt) op (.lit rv rt), true))
       | .bool a, .bool b =>
           (match op.ttype with
            | .EQUAL_EQUAL => (.lit (.bool (a == b)) op, true)
            | .BANG_EQUAL => (.lit (.bool (a != b)) op, true)
            | _ => (.binary (.lit lv lt) op (.lit rv rt), true))
       | _, _ => (.binary (.lit lv lt) op (.lit rv rt), msub))
  | _, _ => (.binary fl op fr, msub)

mutual

/-- `ConstantFolder::fold_expr` (optimizer.cpp:187-415). -/
def foldExpr : Expr → Expr × Bool
  | .lit v t => (.lit v t, false)
  | .grouping e => foldExpr e
  | .unary op r =>
      let (fr, m) := foldExpr r
      match fr with
      | .lit v lt =>
          -- a literal operand sets `modified` before the operator dispatch
          (match op.ttype, v with
           | .MINUS, .num q => (.lit (.num (-q)) op, true)
           | .BANG, .bool b => (.lit (.bool (!b)) op, true)
           | .BANG, .num q => (.lit (.bool (decide (q = 0))) op, true)
           | _, _ => (.unary op (.lit v lt), true))
      | _ => (.unary op fr, m)
  | .binary l op r =>
      let (fl, m1) := foldExpr l
      let (fr, m2) := foldExpr r
      foldBinaryNode op fl fr (m1 || m2)
  | .logical l op r =>
      let (fl, m1) := foldExpr l
      let (fr, m2) := foldExpr r
      match fl with
      | .lit v _ =>
          (match op.ttype with
           | .AND =>
               if litTruthy v then (fr, true)
               else (.lit (.bool false) op, true)
           | .OR =>
               if litTruthy v then (.lit (.bool true) op, true)
               else (fr, true)
           | _ => (.logical fl op fr, m1 || m2))
      | _ => (.logical fl op fr, m1 || m2)
  | .arrayLit elems br =>
      let (fe, m) := foldExprList elems
      (.arrayLit fe br, m)
  | .dictLit pairs br =>
      let (fp, m) := foldPairList pairs
      (.dictLit fp br, m)
  | .indexGet a i br =>
      let (fa, m1) := foldExpr a
      let (fi, m2) := foldExpr i
      (.indexGet fa fi br, m1 || m2)
  | .indexSet a i v br =>
      let (fa, m1) := foldExpr a
      let (fi, m2) := foldExpr i
      let (fv, m3) := foldExpr v
      (.indexSet fa fi fv br, m1 || m2 || m3)
  | .assign n v =>
      let (fv, m) := foldExpr v
      (.assign n fv, m)
  | .call c p args =>
      let (fargs, m) := foldExprList args
      (.call c p fargs, m)
  | .varE n => (.varE n, false)

/-- Folds each expression of a list (argument/element loops in
`fold_expr`). -/
def foldExprList : List Expr → List Expr × Bool
  | [] => ([], false)
  | e :: es =>
      let (fe, m1) := foldExpr e
      let (fes, m2) := foldExprList es
      (fe :: fes, m1 || m2)

/-- Folds each key/value pair of a dictionary literal. -/
def foldPairList : List (Expr × Expr) → List (Expr × Expr) × Bool
  | [] => ([], false)
  | (k, v) :: ps =>
      let (fk, m1) := foldExpr k
      let (fv, m2) := foldExpr v
      let (fps, m3) := foldPairList ps
      ((fk, fv) :: fps, m1 || m2 || m3)

end

mutual

/-- `ConstantFolder::fold_stmt` (optimizer.cpp:34-185); `nullStmt` models
the `nullptr` returned for a deleted statement. -/
def foldStmt : Stmt → Stmt × Bool
  | .nullStmt => (.nullStmt, false)
  | .exprStmt e =>
      let (fe, m) := foldExpr e
      (.exprStmt fe, m)
  | .printStmt e kw =>
      let (fe, m) := foldExpr e
      (.printStmt fe kw, m)
  | .varStmt n init =>
      (match init with
       | some i =>
           let (fi, m) := foldExpr i
           (.varStmt n (some fi), m)
       | none => (.varStmt n none, false))
  | .block stmts brace =>
      let (fs, m) := foldStmtListFiltered stmts
      (.block fs brace, m)
  | .ifStmt c t e kw =>
      let (fc, m1) := foldExpr c
      match fc with
      | .lit v _ =>
          if litCondVal v then
            let (ft, _) := foldStmt t
            (ft, true)
          else
            (match e with
             | some eb =>
                 let (fe, _) := foldStmt eb
                 (fe, true)
             | none => (.nullStmt, true))
      | _ =>
          let (ft, m2) := foldStmt t
          (match e with
           | some eb =>
               let (fe, m3) := foldStmt eb
               (.ifStmt fc ft (some fe) kw, m1 || m2 || m3)
           | none => (.ifStmt fc ft none kw, m1 || m2))
  | .whileStmt c b kw =>
      let (fc, m1) := foldExpr c
      match fc with
      | .lit v lt =>
          if litCondVal v then
            let (fb, m2) := foldStmt b
            (.whileStmt (.lit v lt) fb kw, m1 || m2)
          else (.nullStmt, true)
      | _ =>
          let (fb, m2) := foldStmt b
          (.whileStmt fc fb kw, m1 || m2)
  | .switchStmt kw c cases dflt =>
      let (fc, m1) := foldExpr c
      let (fcs, m2) := foldCaseList cases
      (match dflt with
       | some ds =>
           let (fds, m3) := foldStmtListFiltered ds
           (.switchStmt kw fc fcs (some fds), m1 || m2 || m3)
       | none => (.switchStmt kw fc fcs none, m1 || m2))
  | .functionStmt n params body =>
      let (fb, m) := foldStmtListFiltered body
      (.functionStmt n params fb, m)
  | .returnStmt kw v =>
      (match v with
       | some ve =>
           let (fv, m) := foldExpr ve
           (.returnStmt kw (some fv), m)
       | none => (.returnStmt kw none, false))
  | s => (s, false)

/-- Folds a statement list, keeping only non-null results
(`if (folded) new_stmts.push_back(folded)`). -/
def foldStmtListFiltered : List Stmt → List Stmt × Bool
  | [] => ([], false)
  | s :: ss =>
      let (fs, m1) := foldStmt s
      let (rest, m2) := foldStmtListFiltered ss
      (if fs.isNull then rest else fs :: rest, m1 || m2)

/-- Folds the case clauses of a `switch`. -/
def foldCaseList : List (Expr × List Stmt) → List (Expr × List Stmt) × Bool
  | [] => ([], false)
  | (v, ss) :: cs =>
      let (fv, m1) := foldExpr v
      let (fss, m2) := foldStmtListFiltered ss
      let (fcs, m3) := foldCaseList cs
      ((fv, fss) :: fcs, m1 || m2 || m3)

end

/-- `ConstantFolder::run` (optimizer.cpp:20-32). -/
def constantFolderRun (statements : List Stmt) : List Stmt × Bool :=
  foldStmtListFiltered statements

end Box

namespace Box

/-! ### Algebraic simplifier (`AlgebraicSimplifier`, optimizer.cpp:447-792) -/

/-- `AlgebraicSimplifier::is_zero` (lines 734-741). -/
def isZeroE : Expr → Bool
  | .lit (.num q) _ => decide (q = 0)
  | _ => false

/-- `AlgebraicSimplifier::is_one` (lines 743-750). -/
def isOneE : Expr → Bool
  | .lit (.num q) _ => decide (q = 1)
  | _ => false

/-- `is_power_of_two` (identical in `AlgebraicSimplifier` and
`StrengthReducer`): positive, integral, and a power of two.  (The C++ casts
through `int`; the cast round-trip tests integrality.) -/
def isPowerOfTwoQ (n : Rat) : Bool :=
  if n ≤ 0 then false
  else if n.den ≠ 1 then false
  else Nat.land n.num.toNat (n.num.toNat - 1) == 0

/-- Fuel-bounded halving loop, structurally recursive so that it reduces in
the kernel.  With fuel ≥ n it computes `StrengthReducer::log2_int` (and, on
exact powers of two, `static_cast<int>(std::log2(n))`). -/
def log2Fuel : Nat → Nat → Nat
  | 0, _ => 0
  | f + 1, n => if n ≤ 1 then 0 else 1 + log2Fuel f (n / 2)

/-- `StrengthReducer::log2_int` (lines 1570-1577): shift right until ≤ 1. -/
def log2Int (n : Nat) : Nat := log2Fuel n n

/-- `AlgebraicSimplifier::are_equal_variables` (lines 752-760). -/
def areEqualVariables : Expr → Expr → Bool
  | .varE a, .varE b => a.lexeme == b.lexeme
  | _, _ => false

/-- `AlgebraicSimplifier::create_literal` (lines 762-766): a number literal
whose token is `Token(NUMBER, std::to_string(value), value, 0, 0)`. -/
def createLiteral (value : Rat) : Expr :=
  .lit (.num value)
    ⟨TokenType.NUMBER, toStdString value, LitVal.num value, 0, 0⟩

/-- `AlgebraicSimplifier::deep_copy_expr` (lines 768-792): literals,
variables, binaries and unaries are copied; all other nodes are shared. -/
def deepCopyExpr : Expr → Expr
  | .lit v t => .lit v t
  | .varE n => .varE n
  | .binary l op r => .binary (deepCopyExpr l) op (deepCopyExpr r)
  | .unary op r => .unary op (deepCopyExpr r)
  | e => e

/-- The `x * 2^k` expansion (lines 623-634): `power` repetitions of
`result = Binary(result, +, deep_copy(result))`. -/
def doubleByAdd : Nat → Expr → Expr
  | 0, e => e
  | k + 1, e =>
      let d := doubleByAdd k e
      .binary d (Token.mk2 .PLUS "+" 0 0) (deepCopyExpr d)

/-- The rule application of `simplify_expr` for a binary node
(optimizer.cpp:568-650), applied to the already-simplified operands `sl`
and `sr`; `msub` is the disjunction of the operands' `modified` events. -/
def simplifyBinaryNode (op : Token) (sl sr : Expr) (msub : Bool) : Expr × Bool :=
  if op.ttype = .PLUS then
    if isZeroE sl then (sr, true)
    else if isZeroE sr then (sl, true)
    else (.binary sl op sr, msub)
  else if op.ttype = .MINUS then
    if isZeroE sr then (sl, true)
    else if areEqualVariables sl sr then (createLiteral 0, true)
    else (.binary sl op sr, msub)
  else if op.ttype = .STAR then
    if isZeroE sl then (createLiteral 0, true)
    else if isZeroE sr then (createLiteral 0, true)
    else if isOneE sl then (sr, true)
    else if isOneE sr then (sl, true)
    else
      match sr with
      | .lit (.num v) vt =>
          if v = 2 then
            (.binary sl (Token.mk2 .PLUS "+" 0 0) (deepCopyExpr sl), true)
          else if isPowerOfTwoQ v then
            (doubleByAdd (log2Int v.num.toNat) sl, true)
          else (.binary sl op (.lit (.num v) vt), msub)
      | _ => (.binary sl op sr, msub)
  else if op.ttype = .SLASH then
    if isOneE sr then (sl, true)
    else if areEqualVariables sl sr then (createLiteral 1, true)
    else (.binary sl op sr, msub)
  else (.binary sl op sr, msub)

mutual

/-- `AlgebraicSimplifier::simplify_expr` (optimizer.cpp:565-724). -/
def simplifyExpr : Expr → Expr × Bool
  | .binary l op r =>
      let (sl, m1) := simplifyExpr l
      let (sr, m2) := simplifyExpr r
      simplifyBinaryNode op sl sr (m1 || m2)
  | .unary op r =>
      let (sr, m) := simplifyExpr r
      if op.ttype = .MINUS then
        match sr with
        | .unary op2 r2 =>
            if op2.ttype = .MINUS then (r2, true)
            else (.unary op (.unary op2 r2), m)
        | _ => (.unary op sr, m)
      else (.unary op sr, m)
  | .grouping e => simplifyExpr e
  | .logical l op r =>
      let (sl, m1) := simplifyExpr l
      let (sr, m2) := simplifyExpr r
      (.logical sl op sr, m1 || m2)
  | .arrayLit elems br =>
      let (se, m) := simplifyExprList elems
      (.arrayLit se br, m)
  | .dictLit pairs br =>
      let (sp, m) := simplifyPairList pairs
      (.dictLit sp br, m)
  | .indexGet a i br =>
      let (sa, m1) := simplifyExpr a
      let (si, m2) := simplifyExpr i
      (.indexGet sa si br, m1 || m2)
  | .indexSet a i v br =>
      let (sa, m1) := simplifyExpr a
      let (si, m2) := simplifyExpr i
      let (sv, m3) := simplifyExpr v
      (.indexSet sa si sv br, m1 || m2 || m3)
  | .assign n v =>
      let (sv, m) := simplifyExpr v
      (.assign n sv, m)
  | .call c p args =>
      let (sargs, m) := simplifyExprList args
      (.call c p sargs, m)
  | e => (e, false)

def simplifyExprList : List Expr → List Expr × Bool
  | [] => ([], false)
  | e :: es =>
      let (se, m1) := simplifyExpr e
      let (ses, m2) := simplifyExprList es
      (se :: ses, m1 || m2)

def simplifyPairList : List (Expr × Expr) → List (Expr × Expr) × Bool
  | [] => ([], false)
  | (k, v) :: ps =>
      let (sk, m1) := simplifyExpr k
      let (sv, m2) := simplifyExpr v
      let (sps, m3) := simplifyPairList ps
      ((sk, sv) :: sps, m1 || m2 || m3)

end

mutual

/-- `AlgebraicSimplifier::simplify_stmt` (optimizer.cpp:461-563). -/
def simplifyStmt : Stmt → Stmt × Bool
  | .nullStmt => (.nullStmt, false)
  | .exprStmt e =>
      let (se, m) := simplifyExpr e
      (.exprStmt se, m)
  | .printStmt e kw =>
      let (se, m) := simplifyExpr e
      (.printStmt se kw, m)
  | .varStmt n init =>
      (match init with
       | some i =>
           let (si, m) := simplifyExpr i
           (.varStmt n (some si), m)
       | none => (.varStmt n none, false))
  | .block stmts brace =>
      let (ss, m) := simplifyStmtListFiltered stmts
      (.block ss brace, m)
  | .ifStmt c t e kw =>
      let (sc, m1) := simplifyExpr c
      let (st, m2) := simplifyStmt t
      (match e with
       | some eb =>
           let (se, m3) := simplifyStmt eb
           (.ifStmt sc st (some se) kw, m1 || m2 || m3)
       | none => (.ifStmt sc st none kw, m1 || m2))
  | .whileStmt c b kw =>
      let (sc, m1) := simplifyExpr c
      let (sb, m2) := simplifyStmt b
      (.whileStmt sc sb kw, m1 || m2)
  | .switchStmt kw c cases dflt =>
      let (sc, m1) := simplifyExpr c
      let (scs, m2) := simplifyCaseList cases
      (match dflt with
       | some ds =>
           let (sds, m3) := simplifyStmtListFiltered ds
           (.switchStmt kw sc scs (some sds), m1 || m2 || m3)
       | none => (.switchStmt kw sc scs none, m1 || m2))
  | .functionStmt n params body =>
      let (sb, m) := simplifyStmtListFiltered body
      (.functionStmt n params sb, m)
  | .returnStmt kw v =>
      (match v with
       | some ve =>
           let (sv, m) := simplifyExpr ve
           (.returnStmt kw (some sv), m)
       | none => (.returnStmt kw none, false))
  | s => (s, false)

def simplifyStmtListFiltered : List Stmt → List Stmt × Bool
  | [] => ([], false)
  | s :: ss =>
      let (fs, m1) := simplifyStmt s
      let (rest, m2) := simplifyStmtListFiltered ss
      (if fs.isNull then rest else fs :: rest, m1 || m2)

def simplifyCaseList : List (Expr × List Stmt) → List (Expr × List Stmt) × Bool
  | [] => ([], false)
  | (v, ss) :: cs =>
      let (sv, m1) := simplifyExpr v
      let (sss, m2) := simplifyStmtListFiltered ss
      let (scs, m3) := simplifyCaseList cs
      ((sv, sss) :: scs, m1 || m2 || m3)

end

/-- `AlgebraicSimplifier::run` (optimizer.cpp:447-459). -/
def algebraicSimplifierRun (statements : List Stmt) : List Stmt × Bool :=
  simplifyStmtListFiltered statements

end Box

namespace Box

/-! ### Dead-code eliminator (`DeadCodeEliminator`, optimizer.cpp:794-1045)

`mark_essential_variables` has an empty loop body, so `essential_vars`
stays empty; `defined_vars` is written but never read.  `run` never sets
`modified`, even when it drops statements. -/

/-- Set insertion for the `std::unordered_set<std::string>` of used names
(membership is all that is ever queried). -/
def insertStr (s : List String) (x : String) : List String :=
  if s.contains x then s else x :: s

mutual

/-- `DeadCodeEliminator::analyze_expr` (lines 874-913): collects used
variable names. -/
def dceCollectExpr : Expr → List String → List String
  | .varE n, used => insertStr used n.lexeme
  | .assign n v, used => dceCollectExpr v (insertStr used n.lexeme)
  | .binary l _ r, used => dceCollectExpr r (dceCollectExpr l used)
  | .unary _ r, used => dceCollectExpr r used
  | .logical l _ r, used => dceCollectExpr r (dceCollectExpr l used)
  | .grouping e, used => dceCollectExpr e used
  | .call _ _ args, used => dceCollectExprList args used
  | .arrayLit elems _, used => dceCollectExprList elems used
  | .dictLit pairs _, used => dceCollectPairList pairs used
  | .indexGet a i _, used => dceCollectExpr i (dceCollectExpr a used)
  | .indexSet a i v _, used =>
      dceCollectExpr v (dceCollectExpr i (dceCollectExpr a used))
  | _, used => used

def dceCollectExprList : List Expr → List String → List String
  | [], used => used
  | e :: es, used => dceCollectExprList es (dceCollectExpr e used)

def dceCollectPairList : List (Expr × Expr) → List String → List String
  | [], used => used
  | (k, v) :: ps, used =>
      dceCollectPairList ps (dceCollectExpr v (dceCollectExpr k used))

end

mutual

/-- `DeadCodeEliminator::analyze_stmt` (lines 825-872).  Note that
`UnsafeBlock` and the remaining statement kinds are not traversed. -/
def dceCollectStmt : Stmt → List String → List String
  | .varStmt _ init, used =>
      (match init with
       | some i => dceCollectExpr i used
       | none => used)
  | .exprStmt e, used => dceCollectExpr e used
  | .printStmt e _, used => dceCollectExpr e used
  | .block ss _, used => dceCollectStmtList ss used
  | .ifStmt c t e _, used =>
      let u1 := dceCollectStmt t (dceCollectExpr c used)
      (match e with
       | some eb => dceCollectStmt eb u1
       | none => u1)
  | .whileStmt c b _, used => dceCollectStmt b (dceCollectExpr c used)
  | .switchStmt _ c cases dflt, used =>
      let u1 := dceCollectCaseList cases (dceCollectExpr c used)
      (match dflt with
       | some ds => dceCollectStmtList ds u1
       | none => u1)
  | .functionStmt _ _ body, used => dceCollectStmtList body used
  | .returnStmt _ v, used =>
      (match v with
       | some ve => dceCollectExpr ve used
       | none => used)
  | _, used => used

def dceCollectStmtList : List Stmt → List String → List String
  | [], used => used
  | s :: ss, used => dceCollectStmtList ss (dceCollectStmt s used)

def dceCollectCaseList : List (Expr × List Stmt) → List String → List String
  | [], used => used
  | (v, ss) :: cs, used =>
      dceCollectCaseList cs (dceCollectStmtList ss (dceCollectExpr v used))

end

mutual

/-- `DeadCodeEliminator::has_side_effects` (lines 930-970): calls,
assignments and index-sets are side effects; composite nodes recurse
(`IndexSet` children are not visited, the node itself already counts). -/
def hasSideEffects : Expr → Bool
  | .call _ _ _ => true
  | .assign _ _ => true
  | .indexSet _ _ _ _ => true
  | .binary l _ r => hasSideEffects l || hasSideEffects r
  | .unary _ r => hasSideEffects r
  | .logical l _ r => hasSideEffects l || hasSideEffects r
  | .grouping e => hasSideEffects e
  | .arrayLit elems _ => hasSideEffectsList elems
  | .dictLit pairs _ => hasSideEffectsPairList pairs
  | .indexGet a i _ => hasSideEffects a || hasSideEffects i
  | _ => false

def hasSideEffectsList : List Expr → Bool
  | [] => false
  | e :: es => hasSideEffects e || hasSideEffectsList es

def hasSideEffectsPairList : List (Expr × Expr) → Bool
  | [] => false
  | (k, v) :: ps => hasSideEffects k || hasSideEffects v || hasSideEffectsPairList ps

end

/-- `DeadCodeEliminator::should_keep_stmt` (lines 915-928); `essential_vars`
is always empty. -/
def shouldKeepStmt (used : List String) : Stmt → Bool
  | .nullStmt => false
  | .varStmt n init =>
      (match init with
       | some i => hasSideEffects i
       | none => false)
      || used.contains n.lexeme
  | _ => true

mutual

/-- `DeadCodeEliminator::eliminate_stmt` (lines 972-1045). -/
def eliminateStmt (used : List String) : Stmt → Stmt
  | .block ss brace => .block (eliminateKeptList used ss) brace
  | .ifStmt c t e kw =>
      (match e with
       | some eb => .ifStmt c (eliminateStmt used t) (some (eliminateStmt used eb)) kw
       | none => .ifStmt c (eliminateStmt used t) none kw)
  | .whileStmt c b kw => .whileStmt c (eliminateStmt used b) kw
  | .switchStmt kw c cases dflt =>
      (match dflt with
       | some ds =>
           .switchStmt kw c (eliminateCaseList used cases)
             (some (eliminateKeptList used ds))
       | none => .switchStmt kw c (eliminateCaseList used cases) none)
  | .functionStmt n p body => .functionStmt n p (eliminateKeptList used body)
  | s => s

/-- Keeps (and recursively cleans) the statements passing
`should_keep_stmt`. -/
def eliminateKeptList (used : List String) : List Stmt → List Stmt
  | [] => []
  | s :: ss =>
      if shouldKeepStmt used s then
        eliminateStmt used s :: eliminateKeptList used ss
      else eliminateKeptList used ss

def eliminateCaseList (used : List String) :
    List (Expr × List Stmt) → List (Expr × List Stmt)
  | [] => []
  | (v, ss) :: cs => (v, eliminateKeptList used ss) :: eliminateCaseList used cs

end

/-- `DeadCodeEliminator::run` (lines 794-814): collect used names over the
whole input, then filter.  `modified` is never set. -/
def deadCodeEliminatorRun (statements : List Stmt) : List Stmt × Bool :=
  let used := dceCollectStmtList statements []
  (eliminateKeptList used statements, false)

/-! ### Common-subexpression eliminator (`CommonSubexpressionEliminator`,
optimizer.cpp:1047-1201).  `process_expr` never consults the cache and
`modified` is never set, so the pass is a structure-preserving rebuild. -/

/-- `CommonSubexpressionEliminator::process_expr` (lines 1132-1161). -/
def cseExpr : Expr → Expr
  | .lit v t => .lit v t
  | .varE n => .varE n
  | .binary l op r => .binary (cseExpr l) op (cseExpr r)
  | .unary op r => .unary op (cseExpr r)
  | .logical l op r => .logical (cseExpr l) op (cseExpr r)
  | .grouping e => .grouping (cseExpr e)
  | e => e

mutual

/-- `CommonSubexpressionEliminator::process_stmt` (lines 1060-1130); note
`SwitchStmt` has no case and is returned unchanged. -/
def cseStmt : Stmt → Stmt
  | .block ss brace => .block (cseStmtList ss) brace
  | .ifStmt c t e kw =>
      (match e with
       | some eb => .ifStmt (cseExpr c) (cseStmt t) (some (cseStmt eb)) kw
       | none => .ifStmt (cseExpr c) (cseStmt t) none kw)
  | .whileStmt c b kw => .whileStmt (cseExpr c) (cseStmt b) kw
  | .functionStmt n p body => .functionStmt n p (cseStmtList body)
  | .exprStmt e => .exprStmt (cseExpr e)
  | .printStmt e kw => .printStmt (cseExpr e) kw
  | .varStmt n init =>
      (match init with
       | some i => .varStmt n (some (cseExpr i))
       | none => .varStmt n none)
  | .returnStmt kw v =>
      (match v with
       | some ve => .returnStmt kw (some (cseExpr ve))
       | none => .returnStmt kw none)
  | s => s

def cseStmtList : List Stmt → List Stmt
  | [] => []
  | s :: ss => cseStmt s :: cseStmtList ss

end

/-- `CommonSubexpressionEliminator::run` (lines 1047-1058). -/
def cseRun (statements : List Stmt) : List Stmt × Bool :=
  (cseStmtList statements, false)

end Box

namespace Box

/-! ### Loop optimizer (`LoopOptimizer`, optimizer.cpp:1203-1349)

`can_unroll` returns `false` and `get_iteration_count` returns nothing, so
`try_unroll_loop` never rewrites and `modified` is never set. -/

/-- `LoopOptimizer::can_unroll` (lines 1283-1285). -/
def canUnroll (_ : Stmt) : Bool := false

/-- `LoopOptimizer::get_iteration_count` (lines 1287-1289). -/
def getIterationCount (_ : Stmt) : Option Int := Option.none

/-- `LoopOptimizer::unroll_loop` (lines 1291-1304). -/
def unrollLoop (s : Stmt) (iterations : Int) : Stmt :=
  match s with
  | .whileStmt _ b _ =>
      .block (List.replicate iterations.toNat b) (Token.mk2 .LBRACE "\x7b" 0 0)
  | _ => s

/-- `LoopOptimizer::try_unroll_loop` (lines 1263-1277); the `Bool` is the
`modified` event. -/
def tryUnrollLoop (cfg : OptimizerConfig) (s : Stmt) : Stmt × Bool :=
  if !cfg.loop_unrolling then (s, false)
  else if !canUnroll s then (s, false)
  else
    match getIterationCount s with
    | some n =>
        if n > 0 && n ≤ cfg.loop_unroll_threshold then (unrollLoop s n, true)
        else (s, false)
    | none => (s, false)

mutual

/-- `LoopOptimizer::optimize_stmt` (lines 1214-1261).  Since `can_unroll`
is constantly `false`, `try_unroll_loop` returns its argument unchanged, so
the `dynamic_cast<WhileStmt*>` on its result always succeeds with the
original condition/body/keyword; the recursion below therefore descends
into the original body. -/
def loopOptStmt (cfg : OptimizerConfig) : Stmt → Stmt × Bool
  | .whileStmt c b kw =>
      let (_, m1) := tryUnrollLoop cfg (.whileStmt c b kw)
      let (ob, m2) := loopOptStmt cfg b
      (.whileStmt c ob kw, m1 || m2)
  | .block ss brace =>
      let (os, m) := loopOptStmtList cfg ss
      (.block os brace, m)
  | .ifStmt c t e kw =>
      let (ot, m1) := loopOptStmt cfg t
      (match e with
       | some eb =>
           let (oe, m2) := loopOptStmt cfg eb
           (.ifStmt c ot (some oe) kw, m1 || m2)
       | none => (.ifStmt c ot none kw, m1))
  | .functionStmt n p body =>
      let (ob, m) := loopOptStmtList cfg body
      (.functionStmt n p ob, m)
  | s => (s, false)

def loopOptStmtList (cfg : OptimizerConfig) : List Stmt → List Stmt × Bool
  | [] => ([], false)
  | s :: ss =>
      let (os, m1) := loopOptStmt cfg s
      let (oss, m2) := loopOptStmtList cfg ss
      (os :: oss, m1 || m2)

end

/-- `LoopOptimizer::run` (lines 1203-1212). -/
def loopOptimizerRun (cfg : OptimizerConfig) (statements : List Stmt) :
    List Stmt × Bool :=
  loopOptStmtList cfg statements

/-! ### Strength reducer (`StrengthReducer`, optimizer.cpp:1351-1577) -/

/-- The multiplication expansion loop (lines 1476-1483):
`result = Binary(result, +, result)` repeated `shift_amount` times — unlike
the algebraic simplifier, no deep copy is made, so both operands are the
same (structurally equal) subtree. -/
def strengthDoubling : Nat → Expr → Expr
  | 0, e => e
  | k + 1, e =>
      let d := strengthDoubling k e
      .binary d (Token.mk2 .PLUS "+" 0 0) d

/-- `StrengthReducer::reduce_multiplication` (lines 1463-1489); `none`
models the `nullptr` "no rewrite" result. -/
def reduceMultiplication (left right : Expr) : Option Expr :=
  match right with
  | .lit (.num v) _ =>
      if isPowerOfTwoQ v then
        some (strengthDoubling (log2Int v.num.toNat) left)
      else Option.none
  | _ => Option.none

/-- The division chain of `reduce_division` (lines 1504-1513):
`shift_amount` nested divisions by a fresh literal `2`. -/
def divByTwoChain (op : Token) : Nat → Expr → Expr
  | 0, e => e
  | k + 1, e =>
      let prev := divByTwoChain op k e
      .binary prev (Token.mk2 .SLASH "/" op.line op.column)
        (.lit (.num 2) (Token.mk2 .NUMBER "2" op.line op.column))

/-- `StrengthReducer::reduce_division` (lines 1491-1521). -/
def reduceDivision (left right : Expr) (op : Token) : Option Expr :=
  match right with
  | .lit (.num v) _ =>
      if isPowerOfTwoQ v && decide (v ≥ 2) then
        some (divByTwoChain op (log2Int v.num.toNat) left)
      else Option.none
  | _ => Option.none

/-- `StrengthReducer::reduce_modulo` (lines 1523-1560):
`left - (left / right) * right`.  (The `mask_expr` built at lines
1535-1546 is a discarded local and does not appear in the result.) -/
def reduceModulo (left right : Expr) (op : Token) : Option Expr :=
  match right with
  | .lit (.num v) rt =>
      if isPowerOfTwoQ v && decide (v ≥ 2) then
        some (.binary left (Token.mk2 .MINUS "-" op.line op.column)
          (.binary
            (.binary left (Token.mk2 .SLASH "/" op.line op.column)
              (.lit (.num v) rt))
            (Token.mk2 .STAR "*" op.line op.column)
            (.lit (.num v) rt)))
      else Option.none
  | _ => Option.none

/-- `StrengthReducer::reduce_expr` (lines 1431-1461). -/
def reduceExpr : Expr → Expr × Bool
  | .binary l op r =>
      let (rl, m1) := reduceExpr l
      let (rr, m2) := reduceExpr r
      if op.ttype = .STAR then
        match reduceMultiplication rl rr with
        | some e => (e, true)
        | Option.none => (.binary rl op rr, m1 || m2)
      else if op.ttype = .SLASH then
        match reduceDivision rl rr op with
        | some e => (e, true)
        | Option.none => (.binary rl op rr, m1 || m2)
      else if op.ttype = .PERCENT then
        match reduceModulo rl rr op with
        | some e => (e, true)
        | Option.none => (.binary rl op rr, m1 || m2)
      else (.binary rl op rr, m1 || m2)
  | .unary op r =>
      let (rr, m) := reduceExpr r
      (.unary op rr, m)
  | .assign n v =>
      let (rv, m) := reduceExpr v
      (.assign n rv, m)
  | e => (e, false)

mutual

/-- `StrengthReducer::reduce_stmt` (lines 1362-1429). -/
def reduceStmt : Stmt → Stmt × Bool
  | .exprStmt e =>
      let (re, m) := reduceExpr e
      (.exprStmt re, m)
  | .printStmt e kw =>
      let (re, m) := reduceExpr e
      (.printStmt re kw, m)
  | .varStmt n init =>
      (match init with
       | some i =>
           let (ri, m) := reduceExpr i
           (.varStmt n (some ri), m)
       | Option.none => (.varStmt n Option.none, false))
  | .block ss brace =>
      let (rs, m) := reduceStmtList ss
      (.block rs brace, m)
  | .ifStmt c t e kw =>
      let (rc, m1) := reduceExpr c
      let (rt, m2) := reduceStmt t
      (match e with
       | some eb =>
           let (re, m3) := reduceStmt eb
           (.ifStmt rc rt (some re) kw, m1 || m2 || m3)
       | Option.none => (.ifStmt rc rt Option.none kw, m1 || m2))
  | .whileStmt c b kw =>
      let (rc, m1) := reduceExpr c
      let (rb, m2) := reduceStmt b
      (.whileStmt rc rb kw, m1 || m2)
  | .functionStmt n p body =>
      let (rb, m) := reduceStmtList body
      (.functionStmt n p rb, m)
  | .returnStmt kw v =>
      (match v with
       | some ve =>
           let (rv, m) := reduceExpr ve
           (.returnStmt kw (some rv), m)
       | Option.none => (.returnStmt kw Option.none, false))
  | s => (s, false)

def reduceStmtList : List Stmt → List Stmt × Bool
  | [] => ([], false)
  | s :: ss =>
      let (rs, m1) := reduceStmt s
      let (rss, m2) := reduceStmtList ss
      (rs :: rss, m1 || m2)

end

/-- `StrengthReducer::run` (lines 1351-1360). -/
def strengthReducerRun (statements : List Stmt) : List Stmt × Bool :=
  reduceStmtList statements

/-! ### Function inliner (`FunctionInliner`, optimizer.cpp:1579-1699)

`inline_expr` returns its argument unchanged, `inline_stmt` only descends
into expression statements and blocks, and `modified` is never set; the
collected `function_definitions` map is never consulted by this path, so
no call is ever substituted. -/

/-- `FunctionInliner::inline_expr` (lines 1619-1621). -/
def inlineExpr (e : Expr) : Expr := e

mutual

/-- `FunctionInliner::inline_stmt` (lines 1601-1617). -/
def inlineStmt : Stmt → Stmt
  | .exprStmt e => .exprStmt (inlineExpr e)
  | .block ss brace => .block (inlineStmtList ss) brace
  | s => s

def inlineStmtList : List Stmt → List Stmt
  | [] => []
  | s :: ss => inlineStmt s :: inlineStmtList ss

end

/-- `FunctionInliner::run` (lines 1579-1591). -/
def functionInlinerRun (statements : List Stmt) : List Stmt × Bool :=
  (inlineStmtList statements, false)

/-! ### Peephole optimizer (`PeepholeOptimizer`, optimizer.cpp:1701-1782) -/

/-- `PeepholeOptimizer::optimize_double_negation` (lines 1763-1774):
strips one `--`/`!!` pair at the top of the expression only.  `some`
models "returned a different pointer than the argument" (the caller
compares `shared_ptr`s to decide `modified`). -/
def optimizeDoubleNegation : Expr → Option Expr
  | .unary op r =>
      if op.ttype = .MINUS || op.ttype = .BANG then
        match r with
        | .unary op2 r2 =>
            if op2.ttype = op.ttype then some r2 else Option.none
        | _ => Option.none
      else Option.none
  | _ => Option.none

/-- `PeepholeOptimizer::optimize_boolean_operations` (lines 1780-1782):
always returns its argument (same pointer, hence never `modified`). -/
def optimizeBooleanOperations (_ : Expr) : Option Expr := Option.none

/-- `PeepholeOptimizer::optimize_expr` (lines 1745-1761). -/
def peepholeExpr (e : Expr) : Expr × Bool :=
  match optimizeDoubleNegation e with
  | some e' => (e', true)
  | Option.none =>
      match optimizeBooleanOperations e with
      | some e' => (e', true)
      | Option.none => (e, false)

mutual

/-- `PeepholeOptimizer::optimize_stmt` (lines 1712-1743). -/
def peepholeStmt : Stmt → Stmt × Bool
  | .exprStmt e =>
      let (pe, m) := peepholeExpr e
      (.exprStmt pe, m)
  | .printStmt e kw =>
      let (pe, m) := peepholeExpr e
      (.printStmt pe kw, m)
  | .varStmt n init =>
      (match init with
       | some i =>
           let (pi, m) := peepholeExpr i
           (.varStmt n (some pi), m)
       | Option.none => (.varStmt n Option.none, false))
  | .block ss brace =>
      let (ps, m) := peepholeStmtList ss
      (.block ps brace, m)
  | s => (s, false)

def peepholeStmtList : List Stmt → List Stmt × Bool
  | [] => ([], false)
  | s :: ss =>
      let (ps, m1) := peepholeStmt s
      let (pss, m2) := peepholeStmtList ss
      (ps :: pss, m1 || m2)

end

/-- `PeepholeOptimizer::run` (lines 1701-1710). -/
def peepholeRun (statements : List Stmt) : List Stmt × Bool :=
  peepholeStmtList statements

/-! ### The pass pipeline (`Optimizer`, optimizer.cpp:1784-1848) -/

/-- One full sweep over the pass list built by
`Optimizer::initialize_passes` (lines 1789-1823): each enabled pass runs on
the previous pass's output and contributes its `modified` flag. -/
def sweep (cfg : OptimizerConfig) (stmts : List Stmt) : List Stmt × Bool :=
  let r0 : List Stmt × Bool := (stmts, false)
  let r1 := if cfg.constant_folding then
      let (s, m) := constantFolderRun r0.1; (s, r0.2 || m)
    else r0
  let r2 := if cfg.algebraic_simplification then
      let (s, m) := algebraicSimplifierRun r1.1; (s, r1.2 || m)
    else r1
  let r3 := if cfg.dead_code_elimination then
      let (s, m) := deadCodeEliminatorRun r2.1; (s, r2.2 || m)
    else r2
  let r4 := if cfg.common_subexpression_elimination then
      let (s, m) := cseRun r3.1; (s, r3.2 || m)
    else r3
  let r5 := if cfg.loop_unrolling || cfg.loop_invariant_code_motion then
      let (s, m) := loopOptimizerRun cfg r4.1; (s, r4.2 || m)
    else r4
  let r6 := if cfg.strength_reduction then
      let (s, m) := strengthReducerRun r5.1; (s, r5.2 || m)
    else r5
  let r7 := if cfg.function_inlining then
      let (s, m) := functionInlinerRun r6.1; (s, r6.2 || m)
    else r6
  let r8 := if cfg.peephole_optimization then
      let (s, m) := peepholeRun r7.1; (s, r7.2 || m)
    else r7
  r8

/-- The iteration of `Optimizer::optimize` (lines 1825-1848) with the
remaining iteration budget as fuel: run a sweep; stop when it reports no
modification, or when the budget is exhausted. -/
def optimizeLoop (cfg : OptimizerConfig) : Nat → List Stmt → List Stmt
  | 0, cur => cur
  | n + 1, cur =>
      let (next, anyModified) := sweep cfg cur
      if anyModified then optimizeLoop cfg n next else next

/-- `Optimizer::optimize` (lines 1825-1848): at most 10 sweeps. -/
def optimize (cfg : OptimizerConfig) (statements : List Stmt) : List Stmt :=
  optimizeLoop cfg 10 statements

end Box

namespace Box

/-! ## Memory-safety analyzer: data model
(`src/memory_analyzer/memory_analyzer.hpp`, implementation in
`memory_analyzer.cpp`) -/

/-- `MemoryState` (memory_analyzer.hpp). -/
inductive MemoryState where
  | UNINITIALIZED | ALLOCATED | FREED | INVALID | UNKNOWN
deriving DecidableEq, Repr

/-- `PointerState` (memory_analyzer.hpp). -/
inductive PointerState where
  | NULL_PTR | VALID | DANGLING | UNKNOWN
deriving DecidableEq, Repr

/-- `memory_state_to_string` (memory_analyzer.cpp:9-18). -/
def memoryStateToString : MemoryState → String
  | .UNINITIALIZED => "uninitialized"
  | .ALLOCATED => "allocated"
  | .FREED => "freed"
  | .INVALID => "invalid"
  | .UNKNOWN => "unknown"

/-- `AllocationInfo` (memory_analyzer.hpp); `aliases` is an
`unordered_set`, modelled as a duplicate-free list. -/
structure AllocationInfo where
  varName : String
  allocationToken : Token
  state : MemoryState
  freedAt : Option Token := Option.none
  sizeExpr : Option Expr := Option.none
  isArray : Bool := false
  refCount : Int := 0
  aliases : List String := []
deriving Repr

/-- `PointerInfo` (memory_analyzer.hpp). -/
structure PointerInfo where
  varName : String
  declarationToken : Token
  pointeeType : String
  state : PointerState
  pointsTo : Option String := Option.none
  level : Int := 1
deriving Repr

/-- `MemorySafetyError` (memory_analyzer.hpp): message, token, optional
hint, and the error-kind tag (`error_type`, defaulted to
`"MEMORY SAFETY ERROR"` at throw sites that pass no tag). -/
structure MemErr where
  message : String
  token : Token
  hint : Option String
  errorType : String
deriving DecidableEq, Repr

/-- Association map modelling `std::unordered_map<std::string, ·>`
(lookup / overwrite-insert / in-place update). -/
abbrev AMap (α : Type) := List (String × α)

/-- Map lookup (`find`). -/
def aFind {α : Type} : AMap α → String → Option α
  | [], _ => Option.none
  | (k, v) :: m, key => if k = key then some v else aFind m key

/-- Map store (`m[key] = v`): overwrite the existing entry or append. -/
def aSet {α : Type} : AMap α → String → α → AMap α
  | [], key, v => [(key, v)]
  | (k, w) :: m, key, v =>
      if k = key then (k, v) :: m else (k, w) :: aSet m key v

/-- In-place update through an iterator (`it->second.f = …`); absent keys
are untouched. -/
def aUpdate {α : Type} : AMap α → String → (α → α) → AMap α
  | [], _, _ => []
  | (k, v) :: m, key, f =>
      if k = key then (k, f v) :: m else (k, v) :: aUpdate m key f

/-- The mutable analyzer members (memory_analyzer.hpp:147-153).  The two
scope stacks keep their top at the head.  The CFG-related members are not
part of the state relevant to the claims: the CFG phases
(`build_cfg`/`perform_dataflow_analysis`/`perform_interprocedural_analysis`,
memory_analyzer.cpp:657-1034) contain no `throw` and only append to
`warnings`, so they cannot affect `errors` or the verdict. -/
structure AState where
  allocations : AMap AllocationInfo
  pointers : AMap PointerInfo
  scopeVars : List (List String)
  freedInScope : List (List String)
  strictMode : Bool
  warnings : List String
deriving Repr

/-- Insert into the set at the top of a scope stack
(`…back().insert(x)`). -/
def insertTopStr : List (List String) → String → List (List String)
  | [], _ => []
  | top :: rest, x => insertStr top x :: rest

/-- `MemorySafetyAnalyzer::enter_scope` (memory_analyzer.cpp:157-160). -/
def enterScope (st : AState) : AState :=
  { st with scopeVars := [] :: st.scopeVars,
            freedInScope := [] :: st.freedInScope }

/-- The leak loop of `exit_scope` (memory_analyzer.cpp:170-187) over the
variables of the popped scope. -/
def scopeLeakCheck : List String → List String → AState → Except MemErr AState
  | [], _, st => .ok st
  | v :: vs, freed, st =>
      match aFind st.allocations v with
      | some alloc =>
          if alloc.state = .ALLOCATED && !freed.contains v then
            if st.strictMode then
              .error ⟨"Memory leak: Variable '" ++ v ++
                        "' goes out of scope without being freed",
                      alloc.allocationToken,
                      some ("Add 'free(" ++ v ++ ");' before the end of this scope"),
                      "MEMORY LEAK"⟩
            else
              scopeLeakCheck vs freed
                { st with warnings := st.warnings ++ ["Potential memory leak: " ++ v] }
          else scopeLeakCheck vs freed st
      | Option.none => scopeLeakCheck vs freed st

/-- `MemorySafetyAnalyzer::exit_scope` (memory_analyzer.cpp:162-189): pop
both stacks (only when more than one scope is live) and report leaks for
allocated variables of the popped scope not freed in it. -/
def exitScope (st : AState) : Except MemErr AState :=
  if st.scopeVars.length > 1 then
    let scope := st.scopeVars.headD []
    let freed := st.freedInScope.headD []
    scopeLeakCheck scope freed
      { st with scopeVars := st.scopeVars.tail,
                freedInScope := st.freedInScope.tail }
  else .ok st

/-- `update_pointer_states_on_free` (memory_analyzer.cpp:1024-1034): every
alias pointer of the freed allocation becomes `DANGLING`. -/
def setDanglingAll : List String → AMap PointerInfo → AMap PointerInfo
  | [], ps => ps
  | a :: rest, ps =>
      setDanglingAll rest (aUpdate ps a (fun p => { p with state := .DANGLING }))

def updatePointerStatesOnFree (v : String) (st : AState) : AState :=
  match aFind st.allocations v with
  | some alloc => { st with pointers := setDanglingAll alloc.aliases st.pointers }
  | Option.none => st

/-- The loop of `check_memory_leaks` (memory_analyzer.cpp:615-630) over the
allocation map entries. -/
def leakCheckEntries : List (String × AllocationInfo) → AState → Except MemErr AState
  | [], st => .ok st
  | (v, alloc) :: rest, st =>
      if alloc.state = .ALLOCATED then
        if st.strictMode then
          .error ⟨"Memory leak: Variable '" ++ v ++ "' is never freed",
                  alloc.allocationToken,
                  some ("Add 'free(" ++ v ++ ");' before program exit"),
                  "MEMORY LEAK"⟩
        else
          leakCheckEntries rest
            { st with warnings := st.warnings ++
                ["Warning: Potential memory leak - '" ++ v ++ "' may not be freed"] }
      else leakCheckEntries rest st

/-- `MemorySafetyAnalyzer::check_memory_leaks` (memory_analyzer.cpp:615-630). -/
def checkMemoryLeaks (st : AState) : Except MemErr AState :=
  leakCheckEntries st.allocations st

/-- `check_function_memory_leaks` (memory_analyzer.cpp:600-613): in strict
mode, a still-allocated variable of the function body is a hard error; in
relaxed mode nothing is recorded. -/
def funcLeakEntries (funcName : Token) :
    List (String × AllocationInfo) → AState → Except MemErr AState
  | [], st => .ok st
  | (v, alloc) :: rest, st =>
      if alloc.state = .ALLOCATED && st.strictMode then
        .error ⟨"Memory leak in function '" ++ funcName.lexeme ++
                  "': Variable '" ++ v ++ "' is not freed before return",
                alloc.allocationToken,
                some ("Add 'free(" ++ v ++ ");' before all return statements"),
                "MEMORY LEAK"⟩
      else funcLeakEntries funcName rest st

/-- `check_variable_access` (memory_analyzer.cpp:466-496): accessing a
`FREED` allocation is a hard use-after-free; accessing a `DANGLING`
pointer only warns; the variable name is returned. -/
def checkVariableAccess (nameTok : Token) (st : AState) :
    Except MemErr (AState × Option String) :=
  let v := nameTok.lexeme
  let allocCheck : Except MemErr Unit :=
    match aFind st.allocations v with
    | some alloc =>
        if alloc.state = .FREED then
          .error ⟨"Use-after-free: Accessing freed memory '" ++ v ++ "'",
                  nameTok,
                  some (match alloc.freedAt with
                        | some ft => "Memory was freed at line " ++ toString ft.line
                        | Option.none => "Memory was freed"),
                  "USE-AFTER-FREE"⟩
        else .ok ()
    | Option.none => .ok ()
  match allocCheck with
  | .error e => .error e
  | .ok _ =>
      let st' :=
        match aFind st.pointers v with
        | some p =>
            if p.state = .DANGLING then
              { st with warnings := st.warnings ++
                  ["Warning: Accessing dangling pointer '" ++ v ++ "' at line " ++
                    toString nameTok.line] }
            else st
        | Option.none => st
      .ok (st', some v)

/-- The revert loop of `analyze_if_stmt` (memory_analyzer.cpp:520-527):
variables recorded as freed in the then branch but not in the else branch
go back from `FREED` to `ALLOCATED`. -/
def revertThenOnlyFrees : List String → List String →
    AMap AllocationInfo → AMap AllocationInfo
  | [], _, m => m
  | v :: vs, elseFreed, m =>
      let m' :=
        if elseFreed.contains v then m
        else aUpdate m v fun a =>
          if a.state = .FREED then { a with state := .ALLOCATED } else a
      revertThenOnlyFrees vs elseFreed m'

end Box


namespace Box

/-! ## Memory-safety analyzer: the syntactic walk (Phase A)

`Except MemErr` models the `throw`/`catch` of `MemorySafetyError`; the
state is threaded explicitly.  The expression walk comes first, with
`analyze_call` (memory_analyzer.cpp:308-431) and `analyze_assign`
(433-459) inlined into the `call`/`assign` arms of `analyzeExpr`; the
statement walk follows, with each `analyze_*_stmt` member inlined into
the matching arm of `analyzeStmt`.  Both recursions are structural so
that closed runs evaluate inside the kernel. -/

/-- The `free` branch of `analyze_call` (memory_analyzer.cpp:312-360):
enforce the one-argument arity, and only when that argument is a bare
`Variable` check the allocation's state and mark it freed; any other
argument shape falls through with no error and no state change. -/
def analyzeFreeCall (paren : Token) (args : List Expr) (st : AState) :
    Except MemErr (AState × Option String) :=
  if args.length ≠ 1 then
    .error ⟨"free() expects exactly 1 argument, got " ++ toString args.length,
            paren, some "Usage: free(pointer);", "MEMORY SAFETY ERROR"⟩
  else
    match args with
    | .varE argTok :: _ =>
        let v := argTok.lexeme
        (match aFind st.allocations v with
         | Option.none =>
             .error ⟨"Attempting to free non-allocated memory: '" ++ v ++ "'",
                     argTok,
                     some "Only pointers returned by malloc/calloc/realloc can be freed",
                     "INVALID FREE"⟩
         | some alloc =>
             if alloc.state = .FREED then
               .error ⟨"Double-free detected: '" ++ v ++
                         "' has already been freed",
                       argTok,
                       some (match alloc.freedAt with
                             | some ft =>
                                 "Previously freed at line " ++ toString ft.line
                             | Option.none => "Previously freed"),
                       "DOUBLE-FREE"⟩
             else if alloc.state ≠ .ALLOCATED then
               .error ⟨"Attempting to free memory in invalid state: '" ++ v ++ "'",
                       argTok,
                       some ("Current state: " ++ memoryStateToString alloc.state),
                       "MEMORY SAFETY ERROR"⟩
             else
               let st :=
                 { st with
                   allocations := aUpdate st.allocations v (fun a =>
                     { a with state := .FREED, freedAt := some argTok }),
                   freedInScope := insertTopStr st.freedInScope v }
               .ok (updatePointerStatesOnFree v st, Option.none))
    | _ => .ok (st, Option.none)

/-- The `deref` branch of `analyze_call` (memory_analyzer.cpp:362-419). -/
def analyzeDerefCall (paren : Token) (args : List Expr) (st : AState) :
    Except MemErr (AState × Option String) :=
  if args.length ≠ 1 then
    .error ⟨"deref() expects exactly 1 argument, got " ++ toString args.length,
            paren, some "Usage: deref(pointer);", "MEMORY SAFETY ERROR"⟩
  else
    match args with
    | .varE argTok :: _ =>
        let v := argTok.lexeme
        let allocCheck : Except MemErr Unit :=
          match aFind st.allocations v with
          | some alloc =>
              if alloc.state = .FREED then
                .error ⟨"Use-after-free: Dereferencing freed pointer '" ++ v ++ "'",
                        argTok,
                        some (match alloc.freedAt with
                              | some ft =>
                                  "Pointer was freed at line " ++ toString ft.line
                              | Option.none => "Pointer was freed"),
                        "USE-AFTER-FREE"⟩
              else if alloc.state = .UNINITIALIZED then
                .error ⟨"Dereferencing uninitialized pointer '" ++ v ++ "'",
                        argTok,
                        some "Initialize the pointer before dereferencing",
                        "MEMORY SAFETY ERROR"⟩
              else .ok ()
          | Option.none => .ok ()
        (match allocCheck with
         | .error er => .error er
         | .ok _ =>
             let ptrCheck : Except MemErr Unit :=
               match aFind st.pointers v with
               | some p =>
                   if p.state = .DANGLING then
                     .error ⟨"Use-after-free: Dereferencing dangling pointer '" ++
                               v ++ "'",
                             argTok,
                             some "The memory this pointer refers to has been freed",
                             "USE-AFTER-FREE"⟩
                   else if p.state = .NULL_PTR then
                     .error ⟨"Null pointer dereference: '" ++ v ++ "' is null",
                             argTok,
                             some "Check if pointer is null before dereferencing",
                             "NULL POINTER DEREFERENCE"⟩
                   else .ok ()
               | Option.none => .ok ()
             match ptrCheck with
             | .error er => .error er
             | .ok _ => .ok (st, Option.none))
    | _ => .ok (st, Option.none)

mutual

/-- `analyze_expr` (memory_analyzer.cpp:275-306) with `analyze_call`
(308-431), `analyze_assign` (433-459) and `analyze_unary` (461-464)
inlined (the non-recursive `free`/`deref` branches of `analyze_call`
live in `analyzeFreeCall`/`analyzeDerefCall` above); dictionary literals
have no case and are not traversed. -/
def analyzeExpr : Expr → AState → Except MemErr (AState × Option String)
  | .call callee paren args, st =>
      -- analyze_call
      (match callee with
       | .varE calleeTok =>
           let f := calleeTok.lexeme
           if f = "free" then analyzeFreeCall paren args st
           else if f = "deref" then analyzeDerefCall paren args st
           else if f = "malloc" || f = "calloc" || f = "realloc" || f = "addr_of" then
             .ok (st, Option.none)
           else
             -- any other callee name: analyze the arguments (lines 421-427)
             (match analyzeExprList args st with
              | .error er => .error er
              | .ok st => .ok (st, Option.none))
       | _ => .ok (st, Option.none))
  | .varE n, st => checkVariableAccess n st
  | .assign n value, st =>
      -- analyze_assign
      let v := n.lexeme
      let reassign : Bool :=
        match aFind st.allocations v with
        | some alloc =>
            alloc.state == .ALLOCATED &&
            (match value with
             | .call (.varE cTok) _ _ =>
                 cTok.lexeme == "malloc" || cTok.lexeme == "calloc" ||
                   cTok.lexeme == "realloc"
             | _ => false)
        | Option.none => false
      if reassign then
        .error ⟨"Memory leak: Reassigning '" ++ v ++
                  "' without freeing previous allocation",
                n,
                some ("Free the previous allocation first: free(" ++ v ++ ");"),
                "MEMORY LEAK"⟩
      else
        (match analyzeExpr value st with
         | .error er => .error er
         | .ok (st, _) => .ok (st, Option.none))
  | .binary l _ r, st =>
      (match analyzeExpr l st with
       | .error er => .error er
       | .ok (st, _) =>
           match analyzeExpr r st with
           | .error er => .error er
           | .ok (st, _) => .ok (st, Option.none))
  | .unary _ r, st =>
      (match analyzeExpr r st with
       | .error er => .error er
       | .ok (st, _) => .ok (st, Option.none))
  | .grouping e, st => analyzeExpr e st
  | .logical l _ r, st =>
      (match analyzeExpr l st with
       | .error er => .error er
       | .ok (st, _) =>
           match analyzeExpr r st with
           | .error er => .error er
           | .ok (st, _) => .ok (st, Option.none))
  | .arrayLit elems _, st =>
      (match analyzeExprList elems st with
       | .error er => .error er
       | .ok st => .ok (st, Option.none))
  | .indexGet a i _, st =>
      (match analyzeExpr a st with
       | .error er => .error er
       | .ok (st, _) =>
           match analyzeExpr i st with
           | .error er => .error er
           | .ok (st, _) => .ok (st, Option.none))
  | .indexSet a i v _, st =>
      (match analyzeExpr a st with
       | .error er => .error er
       | .ok (st, _) =>
           match analyzeExpr i st with
           | .error er => .error er
           | .ok (st, _) =>
               match analyzeExpr v st with
               | .error er => .error er
               | .ok (st, _) => .ok (st, Option.none))
  | _, st => .ok (st, Option.none)
termination_by structural e _ => e

/-- Sequential analysis of an expression list (argument/element loops). -/
def analyzeExprList : List Expr → AState → Except MemErr AState
  | [], st => .ok st
  | e :: es, st =>
      match analyzeExpr e st with
      | .error er => .error er
      | .ok (st, _) => analyzeExprList es st
termination_by structural es _ => es

end

/-- `analyze_var_stmt` (memory_analyzer.cpp:215-269). -/
def analyzeVarStmt (n : Token) (init : Option Expr) (st : AState) :
    Except MemErr AState :=
  let st := { st with scopeVars := insertTopStr st.scopeVars n.lexeme }
  match init with
  | Option.none => .ok st
  | some ie =>
      match analyzeExpr ie st with
      | .error er => .error er
      | .ok (st, _) =>
          match ie with
          | .call (.varE calleeTok) _ args =>
              let f := calleeTok.lexeme
              if f = "malloc" || f = "calloc" || f = "realloc" then
                let reassign : Bool :=
                  match aFind st.allocations n.lexeme with
                  | some old => old.state == .ALLOCATED
                  | Option.none => false
                if reassign then
                  .error ⟨"Memory leak: '" ++ n.lexeme ++
                            "' is being reassigned without freeing previous allocation",
                          n,
                          some ("Free the previous allocation first: free(" ++
                            n.lexeme ++ ");"),
                          "MEMORY LEAK"⟩
                else
                  let info : AllocationInfo :=
                    { varName := n.lexeme, allocationToken := n,
                      state := .ALLOCATED, freedAt := Option.none,
                      sizeExpr := args.head?, isArray := (f = "calloc"),
                      refCount := 0, aliases := [] }
                  .ok { st with allocations := aSet st.allocations n.lexeme info }
              else if f = "addr_of" then
                match args with
                | .varE argTok :: _ =>
                    let target := argTok.lexeme
                    let ptrInfo : PointerInfo :=
                      { varName := n.lexeme, declarationToken := n,
                        pointeeType := "number", state := .VALID,
                        pointsTo := some target, level := 1 }
                    let st := { st with pointers := aSet st.pointers n.lexeme ptrInfo }
                    (match aFind st.allocations target with
                     | some _ =>
                         let newAllocations :=
                           aUpdate st.allocations target (fun a =>
                             { a with refCount := a.refCount + 1,
                                      aliases := insertStr a.aliases n.lexeme })
                         .ok { st with allocations := newAllocations }
                     | Option.none => .ok st)
                | _ => .ok st
              else .ok st
          | _ => .ok st

mutual

/-- `analyze_stmt` (memory_analyzer.cpp:191-213) with the statement-kind
members inlined:
`analyze_expr_stmt` (271-273), `analyze_block` (498-506),
`analyze_if_stmt` (508-529), `analyze_while_stmt` (531-537),
`analyze_function_stmt` (539-558), `analyze_return_stmt` (560-564),
`analyze_switch_stmt` (566-587), `analyze_unsafe_block` (589-598).
Statement kinds without a case (`break`, `llvm_inline`, `import`) are
ignored. -/
def analyzeStmt : Stmt → AState → Except MemErr AState
  | .varStmt n init, st => analyzeVarStmt n init st
  | .exprStmt e, st =>
      (match analyzeExpr e st with
       | .error er => .error er
       | .ok (st', _) => .ok st')
  | .block ss _, st =>
      -- analyze_block: enter scope, analyze, exit scope
      (match analyzeStmtList ss (enterScope st) with
       | .error er => .error er
       | .ok st => exitScope st)
  | .ifStmt c t e _, st =>
      -- analyze_if_stmt: snapshot allocations before the then branch; only
      -- when an else branch exists, restore it, analyze the else branch,
      -- and revert the states of variables freed in then but not in else
      (match analyzeExpr c st with
       | .error er => .error er
       | .ok (st, _) =>
           let thenAllocations := st.allocations
           match analyzeStmt t st with
           | .error er => .error er
           | .ok st =>
               let thenFreed := st.freedInScope.headD []
               match e with
               | Option.none => .ok st
               | some eb =>
                   match analyzeStmt eb { st with allocations := thenAllocations } with
                   | .error er => .error er
                   | .ok st =>
                       let elseFreed := st.freedInScope.headD []
                       .ok { st with allocations :=
                               revertThenOnlyFrees thenFreed elseFreed st.allocations })
  | .whileStmt c b _, st =>
      -- analyze_while_stmt
      (match analyzeExpr c st with
       | .error er => .error er
       | .ok (st, _) =>
           match analyzeStmt b (enterScope st) with
           | .error er => .error er
           | .ok st => exitScope st)
  | .functionStmt n _ body, st =>
      -- analyze_function_stmt: fresh allocation/pointer maps for the body,
      -- function-leak check, caller maps restored.
      -- (perform_interprocedural_analysis, lines 913-935, only appends
      -- warnings and is omitted; it cannot raise an error.)
      let oldAllocations := st.allocations
      let oldPointers := st.pointers
      (match analyzeStmtList body
          (enterScope { st with allocations := [], pointers := [] }) with
       | .error er => .error er
       | .ok st =>
           match funcLeakEntries n st.allocations st with
           | .error er => .error er
           | .ok st =>
               match exitScope st with
               | .error er => .error er
               | .ok st =>
                   .ok { st with allocations := oldAllocations,
                                 pointers := oldPointers })
  | .returnStmt _ v, st =>
      (match v with
       | some ve =>
           (match analyzeExpr ve st with
            | .error er => .error er
            | .ok (st', _) => .ok st')
       | Option.none => .ok st)
  | .printStmt e _, st =>
      (match analyzeExpr e st with
       | .error er => .error er
       | .ok (st', _) => .ok st')
  | .switchStmt _ c cases dflt, st =>
      -- analyze_switch_stmt: cases from a shared allocation snapshot, the
      -- default case without a restore
      (match analyzeExpr c st with
       | .error er => .error er
       | .ok (st, _) =>
           match analyzeCaseClauses cases st with
           | .error er => .error er
           | .ok st =>
               match dflt with
               | some ds => analyzeStmtList ds st
               | Option.none => .ok st)
  | .unsafeBlock _ ss, st =>
      -- analyze_unsafe_block: relax strict mode for the body
      let old := st.strictMode
      (match analyzeStmtList ss { st with strictMode := false } with
       | .error er => .error er
       | .ok st' => .ok { st' with strictMode := old })
  | _, st => .ok st
termination_by structural s _ => s

/-- The case loop of `analyze_switch_stmt` (lines 571-580); the collected
per-case maps (`case_allocations`) are never read, so only the restore of
the entry map matters. -/
def analyzeCaseClauses : List (Expr × List Stmt) → AState →
    Except MemErr AState
  | [], st => .ok st
  | (val, ss) :: rest, st =>
      match analyzeExpr val st with
      | .error er => .error er
      | .ok (st, _) =>
          let caseAllocations := st.allocations
          match analyzeStmtList ss st with
          | .error er => .error er
          | .ok st =>
              analyzeCaseClauses rest { st with allocations := caseAllocations }
termination_by structural cs _ => cs

/-- The statement loops of `analyze` and of block/function bodies. -/
def analyzeStmtList : List Stmt → AState → Except MemErr AState
  | [], st => .ok st
  | s :: ss, st =>
      match analyzeStmt s st with
      | .error er => .error er
      | .ok st => analyzeStmtList ss st
termination_by structural ss _ => ss

end

/-- The analyzer's construction state (memory_analyzer.cpp:122-127): one
scope level on each stack, strict mode on. -/
def initialAnalyzerState : AState :=
  { allocations := [], pointers := [], scopeVars := [[]],
    freedInScope := [[]], strictMode := true, warnings := [] }

/-- The error-relevant run of `MemorySafetyAnalyzer::analyze`
(memory_analyzer.cpp:129-155): the syntactic walk over all statements
followed by `check_memory_leaks`.  The subsequent CFG construction and
dataflow (lines 140-143) contain no `throw` and append only warnings, so
they cannot change the outcome modelled here. -/
def runSyntacticAnalysis (stmts : List Stmt) : Except MemErr AState :=
  match analyzeStmtList stmts initialAnalyzerState with
  | .error er => .error er
  | .ok st => checkMemoryLeaks st

/-- `MemorySafetyAnalyzer::analyze` as observed through its return value
and `get_errors()`: `errors` is cleared on entry, only the `catch` block
appends to it (`add_error`, lines 1036-1038, has no caller), and the
verdict is `errors.empty()`. -/
def analyze (stmts : List Stmt) : Bool × List MemErr :=
  match runSyntacticAnalysis stmts with
  | .ok _ => (true, [])
  | .error e => (false, [e])

/-- The allocation state Phase A leaves for a variable after analyzing a
statement list from the initial state (used to observe branch joins). -/
def phaseAStateOf (stmts : List Stmt) (v : String) : Option MemoryState :=
  match analyzeStmtList stmts initialAnalyzerState with
  | .error _ => Option.none
  | .ok st => (aFind st.allocations v).map (fun a => a.state)

end Box


namespace Box

/-! ## Memory-safety analyzer: the dataflow join
(`MemorySafetyAnalyzer::propagate_allocations`, memory_analyzer.cpp:802-811)

The incoming map of a CFG node is computed by clearing `allocations_in`
and then, for each predecessor in the order of the `predecessors` vector,
copying every `(var, alloc)` entry of that predecessor's `allocations_out`
into it — a plain overwrite, with no lattice join.  (The remainder of
`propagate_allocations`, lines 813-843, applies the statement transfer to
a copy of the computed in-map and does not touch `allocations_in`.) -/

/-- The inner loop of `propagate_allocations`: copy every entry of one
predecessor's out-map into the accumulating in-map
(`node->allocations_in[var] = alloc`). -/
def unionInto (acc : AMap AllocationInfo) :
    List (String × AllocationInfo) → AMap AllocationInfo
  | [] => acc
  | (k, v) :: rest => unionInto (aSet acc k v) rest

/-- The outer loop of `propagate_allocations` over the predecessors, in
`predecessors` order, starting from the cleared in-map. -/
def propagateInAux (acc : AMap AllocationInfo) :
    List (AMap AllocationInfo) → AMap AllocationInfo
  | [] => acc
  | m :: ms => propagateInAux (unionInto acc m) ms

/-- The whole incoming-map computation of `propagate_allocations`
(lines 803-809), as a function of the predecessors' out-maps. -/
def propagateIn (predOuts : List (AMap AllocationInfo)) : AMap AllocationInfo :=
  propagateInAux [] predOuts

/-- The entry that the last occurrence of `key` in an entry list provides
(within one predecessor's out-map, a later duplicate overwrites an earlier
one — an `unordered_map` has no duplicates, so this coincides with the
unique entry). -/
def lastEntryVal (key : String) : List (String × AllocationInfo) →
    Option AllocationInfo
  | [] => Option.none
  | (k, a) :: rest =>
      match lastEntryVal key rest with
      | some x => some x
      | Option.none => if k = key then some a else Option.none

/-- The entry that the last predecessor (in `predecessors` order) holding
`key` provides. -/
def lastPredVal (key : String) : List (AMap AllocationInfo) →
    Option AllocationInfo
  | [] => Option.none
  | m :: ms =>
      match lastPredVal key ms with
      | some x => some x
      | Option.none => lastEntryVal key m

end Box

namespace Box

/-! ## Concrete inputs for the spec's scenarios

Tokens carry illustrative line/column values; no property below depends on
them.  The `malloc`/`free`/`if`/`true` keywords become `Variable`/literal
nodes exactly as the parser produces them (keyword token type, keyword
lexeme). -/

/-- Extracts the initializer of the (first) top-level declaration of `v`. -/
def initializerOfVar : List Stmt → String → Option Expr
  | [], _ => Option.none
  | .varStmt n init :: rest, v =>
      if n.lexeme = v then init else initializerOfVar rest v
  | _ :: rest, v => initializerOfVar rest v

def mallocTok : Token := Token.mk2 .MALLOC "malloc" 1 9
def freeTok : Token := Token.mk2 .FREE "free" 2 12
def callParen : Token := Token.mk2 .RPAREN ")" 1 19
def ifTok : Token := Token.mk2 .IF "if" 2 1
def braceTok : Token := Token.mk2 .LBRACE "\x7b" 2 11
def trueLit : Expr := .lit (.bool true) (Token.mk2 .TRUE "true" 2 5)

def xDeclTok : Token := Token.mk2 .IDENTIFIER "x" 1 5
def xUseTok : Token := Token.mk2 .IDENTIFIER "x" 2 17
def lit100 : Expr := .lit (.num 100) (Token.mk2 .NUMBER "100" 1 16)

/-- `var x = malloc(100);` -/
def mallocDeclX : Stmt :=
  .varStmt xDeclTok (some (.call (.varE mallocTok) callParen [lit100]))

/-- `free(x);` -/
def freeCallX : Stmt :=
  .exprStmt (.call (.varE freeTok) callParen [.varE xUseTok])

/-- `var x = malloc(100); if (true) { free(x); }` (scenario 4 of the
spec). -/
def progIfNoElse : List Stmt :=
  [mallocDeclX, .ifStmt trueLit (.block [freeCallX] braceTok) Option.none ifTok]

/-- `var x = malloc(100); if (true) { free(x); } else {}` — the same free
but with an (empty) else branch present. -/
def progIfWithElse : List Stmt :=
  [mallocDeclX,
   .ifStmt trueLit (.block [freeCallX] braceTok) (some (.block [] braceTok)) ifTok]

def vDeclTok : Token := Token.mk2 .IDENTIFIER "v" 1 5
def lit1V : Expr := .lit (.num 1) (Token.mk2 .NUMBER "1" 1 16)

/-- `var v = malloc(1);` — one allocation, never freed. -/
def mallocDeclV : Stmt :=
  .varStmt vDeclTok (some (.call (.varE mallocTok) callParen [lit1V]))

/-- The program consisting only of the unmatched allocation. -/
def progLeakOnly : List Stmt := [mallocDeclV]

/-- The Phase-A state after `var v = malloc(1);`. -/
def stAfterMallocV : AState :=
  { allocations :=
      [("v", { varName := "v", allocationToken := vDeclTok,
               state := .ALLOCATED, freedAt := Option.none,
               sizeExpr := some lit1V, isArray := false, refCount := 0,
               aliases := [] })],
    pointers := [], scopeVars := [["v"]], freedInScope := [[]],
    strictMode := true, warnings := [] }

def wUseTok : Token := Token.mk2 .IDENTIFIER "w" 2 17

/-- `var v = malloc(1); free(w);` — exactly one allocation, no free of
`v`, plus a free of a never-allocated name. -/
def progLeakPlusInvalidFree : List Stmt :=
  [mallocDeclV, .exprStmt (.call (.varE freeTok) callParen [.varE wUseTok])]

def fUseTok : Token := Token.mk2 .IDENTIFIER "f" 1 1
def starTok : Token := Token.mk2 .STAR "*" 1 5
def zeroLitTok : Token := Token.mk2 .NUMBER "0" 1 7

/-- `f() * 0` — a multiplication by zero whose dropped operand is a call
(and so has side effects). -/
def mulCallByZero : Expr :=
  .binary (.call (.varE fUseTok) callParen []) starTok
    (.lit (.num 0) zeroLitTok)

def slashTok : Token := Token.mk2 .SLASH "/" 1 9
def printTok : Token := Token.mk2 .PRINT "print" 1 1
def oneLitTok : Token := Token.mk2 .NUMBER "1" 1 7

/-- `print 1 / 0;` — a division by the constant zero in live code. -/
def progDivByZero : List Stmt :=
  [.printStmt
     (.binary (.lit (.num 1) oneLitTok) slashTok (.lit (.num 0) zeroLitTok))
     printTok]

def addNameTok : Token := Token.mk2 .IDENTIFIER "add" 1 5
def aParamTok : Token := Token.mk2 .IDENTIFIER "a" 1 9
def bParamTok : Token := Token.mk2 .IDENTIFIER "b" 1 12
def returnTok : Token := Token.mk2 .RETURN "return" 1 17
def plusTok : Token := Token.mk2 .PLUS "+" 1 26
def rDeclTok : Token := Token.mk2 .IDENTIFIER "r" 2 5
def rUseTok : Token := Token.mk2 .IDENTIFIER "r" 3 7
def lit2 : Expr := .lit (.num 2) (Token.mk2 .NUMBER "2" 2 13)
def lit3 : Expr := .lit (.num 3) (Token.mk2 .NUMBER "3" 2 16)

/-- The call `add(2, 3)`. -/
def addCallExpr : Expr := .call (.varE addNameTok) callParen [lit2, lit3]

/-- `fun add(a, b) { return a + b; } var r = add(2, 3); print r;`
(scenario 5 of the spec). -/
def progInline : List Stmt :=
  [.functionStmt addNameTok [aParamTok, bParamTok]
     [.returnStmt returnTok
        (some (.binary (.varE aParamTok) plusTok (.varE bParamTok)))],
   .varStmt rDeclTok (some addCallExpr),
   .printStmt (.varE rUseTok) printTok]

def yDeclTok : Token := Token.mk2 .IDENTIFIER "y" 2 5
def lit1X : Expr := .lit (.num 1) (Token.mk2 .NUMBER "1" 1 9)

/-- `var x = 1; var y = x;` — `y` is dead, and after `y` is deleted `x`
becomes dead in turn. -/
def progDeadChain : List Stmt :=
  [.varStmt xDeclTok (some lit1X),
   .varStmt yDeclTok (some (.varE xUseTok))]

/-- `print 1;` — already a fixed point of every pass. -/
def progPrintOne : List Stmt := [.printStmt (.lit (.num 1) oneLitTok) printTok]

/-- An `ALLOCATED` record for `x` (a predecessor out-map entry as the
dataflow transfer creates it, memory_analyzer.cpp:821). -/
def allocRecX : AllocationInfo :=
  { varName := "x", allocationToken := xDeclTok, state := .ALLOCATED }

/-- The same record after the `free` transfer set its state to `FREED`. -/
def freedRecX : AllocationInfo := { allocRecX with state := .FREED }

end Box

namespace Box

/-! ## Theorems about the claims -/

/-- C8: for every `for` statement, the parser produces the lowered form
`Block(init, While(cond, Block(body, ExprStmt(incr))))`, with the literal
`true` substituted for a missing condition, the inner block omitted when
the increment is absent, and the outer block omitted when the initializer
is absent: the statement `for_statement` assembles equals the
specification's lowered form for every combination of present/absent
clauses. -/
theorem for_lowering_matches_spec (kw : Token) (ini : Option Stmt)
    (cond incr : Option Expr) (body : Stmt) :
    forStatementLower kw ini cond incr body = forLoweredSpec kw ini cond incr body := by
  cases ini <;> cases cond <;> cases incr <;> rfl

/-- C9: after every call to `MemorySafetyAnalyzer::analyze`, the hard-error
list has at most one element — the analysis aborts at the first raised
error and only the `catch` block appends to `errors`. -/
theorem analyze_records_at_most_one_error (stmts : List Stmt) :
    (analyze stmts).2.length ≤ 1 := by
  unfold analyze
  cases runSyntacticAnalysis stmts <;> simp

/-- C1 counterexample: on `var x = malloc(100); if (true) { free(x); }`
the analyzer leaves `x` in state `FREED` after the if (not `ALLOCATED`)
and `analyze` returns safe with an empty error list (no `MEMORY LEAK`),
contradicting the claim at its own concrete program. -/
theorem branch_free_persists_counterexample :
    phaseAStateOf progIfNoElse "x" = some MemoryState.FREED ∧
    analyze progIfNoElse = (true, []) := ⟨by rfl, by rfl⟩

/-- C1 amended: with no else branch, the then branch's frees persist —
after `var x = malloc(100); if (true) { free(x); }` the analyzer has `x`
`FREED` and accepts the program with no error; the revert to `ALLOCATED`
(and the resulting `MEMORY LEAK` at program end) happens only when an
else branch is present, because only then is the pre-then allocation map
restored, as the `else {}` variant shows. -/
theorem branch_free_persists_amended :
    phaseAStateOf progIfNoElse "x" = some MemoryState.FREED ∧
    analyze progIfNoElse = (true, []) ∧
    phaseAStateOf progIfWithElse "x" = some MemoryState.ALLOCATED ∧
    analyze progIfWithElse =
      (false,
       [⟨"Memory leak: Variable 'x' is never freed", xDeclTok,
         some "Add 'free(x);' before program exit", "MEMORY LEAK"⟩]) :=
  ⟨by rfl, by rfl, by rfl, by rfl⟩

/-- C2 counterexample: a node whose two predecessors hold `x` as
`ALLOCATED` and `FREED` (in that order) gets `x` as `FREED` in its
incoming map — not the `ALLOCATED` the claim requires for a conflict. -/
theorem propagate_in_conflict_counterexample :
    (aFind (propagateIn [[("x", allocRecX)], [("x", freedRecX)]]) "x").map
        (fun a => a.state) = some MemoryState.FREED ∧
    MemoryState.FREED ≠ MemoryState.ALLOCATED := ⟨by rfl, by decide⟩

/-- Lookup after an overwrite-insert. -/
theorem aFind_aSet {α : Type} (m : AMap α) (k key : String) (x : α) :
    aFind (aSet m k x) key = if k = key then some x else aFind m key := by
  induction m with
  | nil => by_cases h : k = key <;> simp [aSet, aFind, h]
  | cons hd tl ih =>
      obtain ⟨k', w⟩ := hd
      by_cases h1 : k' = k
      · subst h1
        simp only [aSet, if_pos rfl, aFind]
        by_cases h2 : k' = key <;> simp [h2]
      · simp only [aSet, if_neg h1, aFind]
        by_cases h2 : k' = key
        · subst h2
          have hk : ¬ k = k' := fun hh => h1 hh.symm
          simp [hk]
        · simp [h2, ih]

/-- Lookup after copying one predecessor's out-map into the accumulator:
the last matching entry of the copied map wins, otherwise the accumulator
is consulted. -/
theorem aFind_unionInto (entries : List (String × AllocationInfo))
    (acc : AMap AllocationInfo) (key : String) :
    aFind (unionInto acc entries) key =
      match lastEntryVal key entries with
      | some x => some x
      | Option.none => aFind acc key := by
  induction entries generalizing acc with
  | nil => simp [unionInto, lastEntryVal]
  | cons hd tl ih =>
      obtain ⟨k, v⟩ := hd
      simp only [unionInto, lastEntryVal]
      rw [ih]
      cases hl : lastEntryVal key tl
      · simp only [aFind_aSet]
        by_cases h2 : k = key <;> simp [h2]
      · simp

/-- Lookup through the predecessor loop: the last predecessor providing
the key wins, otherwise the accumulator is consulted. -/
theorem aFind_propagateInAux (preds : List (AMap AllocationInfo))
    (acc : AMap AllocationInfo) (key : String) :
    aFind (propagateInAux acc preds) key =
      match lastPredVal key preds with
      | some x => some x
      | Option.none => aFind acc key := by
  induction preds generalizing acc with
  | nil => simp [propagateInAux, lastPredVal]
  | cons m ms ih =>
      simp only [propagateInAux, lastPredVal]
      rw [ih]
      cases hl : lastPredVal key ms
      · show aFind (unionInto acc m) key =
          (match lastEntryVal key m with
           | some x => some x
           | Option.none => aFind acc key)
        rw [aFind_unionInto]
      · rfl

/-- C2 amended: the incoming map of a node is the set-union of its
predecessors' out-map keys, but for each key the joined entry is simply
the entry of the last predecessor (in `predecessors` order) that holds
the key — no lattice join is performed.  `Freed ∧ Freed = Freed` and
`Allocated ∧ Allocated = Allocated` follow, but a conflict yields the
last predecessor's state (with no warning), not `Allocated`. -/
theorem propagate_in_last_pred_wins (preds : List (AMap AllocationInfo))
    (key : String) :
    aFind (propagateIn preds) key = lastPredVal key preds := by
  unfold propagateIn
  rw [aFind_propagateInAux]
  cases lastPredVal key preds <;> simp [aFind]

/-- C3 counterexample: the algebraic simplifier rewrites `f() * 0` — whose
dropped operand is a call and therefore has side effects — to the literal
`0` instead of leaving the multiplication unchanged. -/
theorem mul_zero_drops_side_effects_counterexample :
    simplifyExpr mulCallByZero = (createLiteral 0, true) ∧
    hasSideEffects (Expr.call (.varE fUseTok) callParen []) = true ∧
    (simplifyExpr mulCallByZero).1 ≠ mulCallByZero :=
  ⟨rfl, rfl, fun h => Expr.noConfusion h⟩

/-- C3 amended: the simplifier rewrites `x * 0` and `0 * x` to the
literal `0` unconditionally — it performs no side-effect check on the
dropped operand (the pass never consults `has_side_effects`, which
belongs to the dead-code eliminator). -/
theorem mul_zero_rewrites_unconditionally (l r : Expr) (st zt : Token)
    (hs : st.ttype = TokenType.STAR) :
    simplifyExpr (.binary l st (.lit (.num 0) zt)) = (createLiteral 0, true) ∧
    simplifyExpr (.binary (.lit (.num 0) zt) st r) = (createLiteral 0, true) := by
  constructor
  · have e1 : simplifyExpr (.binary l st (.lit (.num 0) zt))
        = simplifyBinaryNode st (simplifyExpr l).1 (.lit (.num 0) zt)
            ((simplifyExpr l).2 || false) := rfl
    rw [e1]
    simp only [simplifyBinaryNode, hs]
    cases hz : isZeroE (simplifyExpr l).1 <;> simp [hz, isZeroE]
  · have e1 : simplifyExpr (.binary (.lit (.num 0) zt) st r)
        = simplifyBinaryNode st (.lit (.num 0) zt) (simplifyExpr r).1
            (false || (simplifyExpr r).2) := rfl
    rw [e1]
    simp [simplifyBinaryNode, hs, isZeroE]

/-- C3 witness: the amended rule applied to `x * 0` at a concrete `*`
token. -/
theorem mul_zero_rewrites_unconditionally_witness :
    starTok.ttype = TokenType.STAR ∧
    simplifyExpr (.binary (.varE xUseTok) starTok (.lit (.num 0) zeroLitTok)) =
      (createLiteral 0, true) :=
  ⟨rfl, (mul_zero_rewrites_unconditionally (.varE xUseTok) (.varE xUseTok)
    starTok zeroLitTok rfl).1⟩

/-- C4: a binary expression on two number literals with operator `/` or
`%` folds to a literal if and only if the right operand is nonzero; with a
zero right operand the folder returns the division/modulo node intact,
and on the whole pipeline `print 1 / 0;` survives optimization
unchanged. -/
theorem div_mod_fold_iff (a b : Rat) (lt rt opTok : Token)
    (h : opTok.ttype = TokenType.SLASH ∨ opTok.ttype = TokenType.PERCENT) :
    (((foldExpr (.binary (.lit (.num a) lt) opTok (.lit (.num b) rt))).1.isNumberLiteral = true)
      ↔ b ≠ 0) ∧
    (b = 0 →
      (foldExpr (.binary (.lit (.num a) lt) opTok (.lit (.num b) rt))).1 =
        .binary (.lit (.num a) lt) opTok (.lit (.num b) rt)) ∧
    optimize {} progDivByZero = progDivByZero := by
  have e1 : foldExpr (.binary (.lit (.num a) lt) opTok (.lit (.num b) rt))
      = foldBinaryNode opTok (.lit (.num a) lt) (.lit (.num b) rt) false := rfl
  refine ⟨?_, ?_, rfl⟩ <;>
    (rw [e1]; rcases h with h | h <;>
      (simp only [foldBinaryNode, h]; by_cases hb : b = 0 <;>
        simp [hb, Expr.isNumberLiteral]))

/-- C4 witness: `1 / 0` with a concrete `/` token does not fold. -/
theorem div_mod_fold_iff_witness :
    (slashTok.ttype = TokenType.SLASH ∨ slashTok.ttype = TokenType.PERCENT) ∧
    (((foldExpr (.binary (.lit (.num 1) oneLitTok) slashTok
        (.lit (.num 0) zeroLitTok))).1.isNumberLiteral = true) ↔ (0 : Rat) ≠ 0) :=
  ⟨Or.inl rfl,
   (div_mod_fold_iff 1 0 oneLitTok zeroLitTok slashTok (Or.inl rfl)).1⟩

/-- C5 counterexample: with function inlining enabled and
`inline_threshold = 2`, optimizing
`fun add(a, b) { return a + b; } var r = add(2, 3); print r;` leaves the
whole program unchanged — `r`'s initializer is still the call
`add(2, 3)`, not the number literal `5`. -/
theorem inliner_leaves_call_counterexample :
    optimize { inline_threshold := 2 } progInline = progInline ∧
    initializerOfVar (optimize { inline_threshold := 2 } progInline) "r" =
      some addCallExpr ∧
    addCallExpr.isNumberLiteral = false :=
  ⟨rfl, rfl, rfl⟩

/-- C5 amended: for every inline threshold (in particular every
threshold ≥ 2), the optimizer leaves the program unchanged: the function
inliner's `inline_expr` returns expressions unmodified, so the call
`add(2, 3)` is never substituted and `r`'s initializer never becomes
`5`. -/
theorem inliner_leaves_call_amended (t : Int) (_ht : t ≥ 2) :
    optimize { inline_threshold := t } progInline = progInline ∧
    initializerOfVar (optimize { inline_threshold := t } progInline) "r" =
      some addCallExpr :=
  ⟨rfl, rfl⟩

/-- C5 witness: the amended statement at threshold 2. -/
theorem inliner_leaves_call_amended_witness :
    (2 : Int) ≥ 2 ∧
    optimize { inline_threshold := (2 : Int) } progInline = progInline :=
  ⟨by decide, (inliner_leaves_call_amended 2 (by decide)).1⟩

/-- C6 counterexample: `optimize` is not idempotent.  On
`var x = 1; var y = x;` the first run deletes only `y` (the dead-code
eliminator reports no modification, so the pipeline stops), and a second
run deletes `x` as well. -/
theorem optimize_not_idempotent_counterexample :
    optimize {} progDeadChain = [Stmt.varStmt xDeclTok (some lit1X)] ∧
    optimize {} (optimize {} progDeadChain) = [] ∧
    ([Stmt.varStmt xDeclTok (some lit1X)] : List Stmt) ≠ [] :=
  ⟨rfl, rfl, fun h => List.noConfusion h⟩

/-- C6 amended: a second `optimize` run changes nothing exactly when the
first run's result is a true fixed point of one pipeline sweep (every
pass leaves it unchanged and reports no modification).  This can fail in
general because the dead-code eliminator deletes statements without
reporting a modification and the iteration cap can stop before a fixed
point. -/
theorem optimize_idempotent_on_sweep_fixed_points (cfg : OptimizerConfig)
    (A : List Stmt)
    (h : sweep cfg (optimize cfg A) = (optimize cfg A, false)) :
    optimize cfg (optimize cfg A) = optimize cfg A := by
  show optimizeLoop cfg 10 (optimize cfg A) = optimize cfg A
  rw [show (10 : Nat) = 9 + 1 from rfl, optimizeLoop, h]
  rfl

/-- C6 witness: `print 1;` is a sweep fixed point, and a second run
leaves it unchanged. -/
theorem optimize_idempotent_witness :
    sweep {} (optimize {} progPrintOne) = (optimize {} progPrintOne, false) ∧
    optimize {} (optimize {} progPrintOne) = optimize {} progPrintOne :=
  ⟨rfl, optimize_idempotent_on_sweep_fixed_points {} progPrintOne rfl⟩

/-- C7 counterexample: `var v = malloc(1); free(w);` has exactly one
allocation and no free of `v`, yet the strict analyzer's single error is
the `INVALID FREE` for `w`, not a `MEMORY LEAK`. -/
theorem single_malloc_error_kind_counterexample :
    analyze progLeakPlusInvalidFree =
      (false,
       [⟨"Attempting to free non-allocated memory: 'w'", wUseTok,
         some "Only pointers returned by malloc/calloc/realloc can be freed",
         "INVALID FREE"⟩]) ∧
    "INVALID FREE" ≠ "MEMORY LEAK" := ⟨by rfl, by decide⟩

/-- C7 amended: when the syntactic walk completes without raising an
earlier error and leaves exactly the one allocation still `ALLOCATED` in
strict mode, `analyze` reports exactly one error, of kind `MEMORY LEAK`,
whose token is the allocation's declaration token (the `malloc`
declaration site). -/
theorem single_malloc_leak_amended (stmts : List Stmt) (v : String)
    (info : AllocationInfo) (st : AState)
    (hrun : analyzeStmtList stmts initialAnalyzerState = .ok st)
    (hallocs : st.allocations = [(v, info)])
    (hstate : info.state = MemoryState.ALLOCATED)
    (hstrict : st.strictMode = true) :
    analyze stmts =
      (false,
       [⟨"Memory leak: Variable '" ++ v ++ "' is never freed",
         info.allocationToken,
         some ("Add 'free(" ++ v ++ ");' before program exit"),
         "MEMORY LEAK"⟩]) := by
  unfold analyze runSyntacticAnalysis
  rw [hrun]
  show (match leakCheckEntries st.allocations st with
        | .ok _ => (true, ([] : List MemErr))
        | .error e => (false, [e])) = _
  rw [hallocs]
  simp only [leakCheckEntries, hstate, hstrict]
  simp

/-- C7 witness: the amended statement on `var v = malloc(1);`. -/
theorem single_malloc_leak_amended_witness :
    analyzeStmtList progLeakOnly initialAnalyzerState = .ok stAfterMallocV ∧
    analyze progLeakOnly =
      (false, [⟨"Memory leak: Variable 'v' is never freed", vDeclTok,
                some "Add 'free(v);' before program exit", "MEMORY LEAK"⟩]) :=
  ⟨by rfl,
   single_malloc_leak_amended progLeakOnly "v"
     { varName := "v", allocationToken := vDeclTok, state := .ALLOCATED,
       freedAt := Option.none, sizeExpr := some lit1V, isArray := false,
       refCount := 0, aliases := [] }
     stAfterMallocV (by rfl) rfl rfl rfl⟩

/-- C10: a `free(e)` call whose single argument `e` is not a bare
variable reference raises no error and leaves the entire analyzer state —
in particular every allocation record and pointer record — unchanged. -/
theorem free_nonvariable_arg_noop (calleeTok paren : Token) (arg : Expr)
    (st : AState) (hf : calleeTok.lexeme = "free") (hv : arg.isVariable = false) :
    analyzeExpr (.call (.varE calleeTok) paren [arg]) st = .ok (st, Option.none) := by
  have e1 : analyzeExpr (.call (.varE calleeTok) paren [arg]) st =
      (if calleeTok.lexeme = "free" then analyzeFreeCall paren [arg] st
       else if calleeTok.lexeme = "deref" then analyzeDerefCall paren [arg] st
       else if calleeTok.lexeme = "malloc" || calleeTok.lexeme = "calloc" ||
              calleeTok.lexeme = "realloc" || calleeTok.lexeme = "addr_of" then
         .ok (st, Option.none)
       else
         match analyzeExprList [arg] st with
         | .error er => .error er
         | .ok st => .ok (st, Option.none)) := rfl
  rw [e1, hf]
  simp only [if_pos rfl]
  cases arg <;> simp_all [analyzeFreeCall, Expr.isVariable]

/-- C10 witness: `free((x))` — a parenthesized grouping argument — on the
initial analyzer state. -/
theorem free_nonvariable_arg_noop_witness :
    freeTok.lexeme = "free" ∧
    (Expr.grouping (Expr.varE xUseTok)).isVariable = false ∧
    analyzeExpr (.call (.varE freeTok) callParen [.grouping (.varE xUseTok)])
      initialAnalyzerState = .ok (initialAnalyzerState, Option.none) :=
  ⟨rfl, rfl,
   free_nonvariable_arg_noop freeTok callParen (.grouping (.varE xUseTok))
     initialAnalyzerState rfl rfl⟩

end Box
